import Mathlib

/-!
Shallow embedding of `src/nomad_perotf/parsers/perotf_batch_parser.py`.

The source file reads a two-level-header spreadsheet (a pandas `DataFrame`
with a `MultiIndex` of columns) and turns rows and column groups into
sample / substrate / batch / process records.

Modelling conventions:
* A spreadsheet cell is `Cell`: missing (`NaN`, modelled as `Cell.na`),
  a float (modelled as an exact rational `Cell.num`), or a string.
* A Python run-time value produced by `get_value` / stored in a record field
  is `PyVal`: `None`, a float, or a string.
* Fallible Python code (code that can raise) is embedded in
  `Except Unit`; since every exception is fatal for the parser the error
  payload is uninformative.
* `float(x)` applied to a string is `parseFloat?`; it implements plain
  decimal literals (optional sign, digits, one optional point, surrounding
  whitespace).  Python additionally accepts exponents and `inf`/`nan`
  spellings; no claim depends on those.
* `str(x)` applied to a float is `pyFloatStr`; exact when the rational has a
  finite decimal expansion (every actual Python float does).
-/

set_option maxHeartbeats 1000000

inductive Cell where
  | na
  | num (q : ℚ)
  | str (s : String)
deriving DecidableEq

inductive PyVal where
  | none
  | num (q : ℚ)
  | str (s : String)
deriving DecidableEq

/-- A row of a (sub-)table: association list from column name to cell,
mirroring a pandas `Series` with a string index. -/
abbrev SubRow := List (String × Cell)

/-- Digit characters to the natural number they denote. -/
def digitsVal (l : List Char) : ℕ :=
  l.foldl (fun a c => a * 10 + (c.toNat - 48)) 0

/-- `isPrefixOf` on character lists (structural, so it evaluates in the
kernel; the `String` library versions use well-founded recursion). -/
def isPrefixL : List Char → List Char → Bool
  | [], _ => true
  | _ :: _, [] => false
  | a :: as, b :: bs => a == b && isPrefixL as bs

/-- Python `pat in s` on character lists. -/
def containsSubL (pat : List Char) : List Char → Bool
  | [] => isPrefixL pat []
  | a :: rest => isPrefixL pat (a :: rest) || containsSubL pat rest

/-- Python `s.split(c)` for a one-character separator. -/
def splitCharL (c : Char) : List Char → List (List Char)
  | [] => [[]]
  | a :: as =>
    if a == c then [] :: splitCharL c as
    else
      match splitCharL c as with
      | [] => [[a]]
      | h :: t => (a :: h) :: t

/-- Python `s.strip()` on character lists. -/
def trimL (l : List Char) : List Char :=
  ((l.dropWhile Char.isWhitespace).reverse.dropWhile Char.isWhitespace).reverse

/-- `c.join(parts)` for a one-character separator. -/
def joinSepL (c : Char) : List (List Char) → List Char
  | [] => []
  | [x] => x
  | x :: xs => x ++ c :: joinSepL c xs

/-- Code-point lexicographic `<` on character lists (Python string order). -/
def ltL : List Char → List Char → Bool
  | [], [] => false
  | [], _ :: _ => true
  | _ :: _, [] => false
  | a :: as, b :: bs => if a == b then ltL as bs else decide (a.toNat < b.toNat)

/-- Python `s.strip()`. -/
def pyTrim (s : String) : String := String.mk (trimL s.data)

/-- Python `s.lower()`. -/
def pyLower (s : String) : String := String.mk (s.data.map Char.toLower)

/-- Python `s.startswith(pre)`. -/
def pyStartsWith (s pre : String) : Bool := isPrefixL pre.data s.data

/-- Python `s.split(c)` for a one-character separator. -/
def pySplit (s : String) (c : Char) : List String := (splitCharL c s.data).map String.mk

/-- Python `c.join(parts)` for a one-character separator. -/
def pyJoin (c : Char) (l : List String) : String :=
  String.mk (joinSepL c (l.map String.data))

/-- Embeds Python `float(s)` for a string `s` (decimal literals only). -/
def parseFloat? (s : String) : Option ℚ :=
  let t := trimL s.data
  let sgn : ℤ := if isPrefixL ['-'] t then -1 else 1
  let t2 := if isPrefixL ['-'] t || isPrefixL ['+'] t then t.drop 1 else t
  match splitCharL '.' t2 with
  | [a] =>
    if a ≠ [] ∧ a.all Char.isDigit then
      some ((sgn * (digitsVal a : ℤ) : ℤ) : ℚ)
    else Option.none
  | [a, b] =>
    if (a ++ b) ≠ [] ∧ (a ++ b).all Char.isDigit then
      some (((sgn * (digitsVal (a ++ b) : ℤ) : ℤ) : ℚ) / ((10 : ℚ) ^ b.length))
    else Option.none
  | _ => Option.none

/-- Drop trailing `'0'` characters. -/
def stripZerosL (l : List Char) : List Char :=
  (l.reverse.dropWhile (fun c => c = '0')).reverse

/-- Left-pad a digit string with `'0'` up to length `k`. -/
def padLeftZeros (l : List Char) (k : ℕ) : List Char :=
  List.replicate (k - l.length) '0' ++ l

/-- Embeds Python `str(x)` for a float `x`: exact decimal expansion (Python
floats are dyadic rationals, so a finite expansion always exists). -/
def pyFloatStr (q : ℚ) : String :=
  match (List.range 31).find? (fun k => 10 ^ k % q.den == 0) with
  | some k =>
    let scaled := q.num.natAbs * (10 ^ k / q.den)
    let ip := scaled / 10 ^ k
    let fp := scaled % 10 ^ k
    let fracL := stripZerosL (padLeftZeros (toString fp).data k)
    (if q.num < 0 then "-" else "") ++ toString ip ++ "." ++
      (if fracL = [] then "0" else String.mk fracL)
  | Option.none => toString q.num ++ "/" ++ toString q.den

/-- Python `str`/f-string formatting of a cell (`str(nan) = "nan"`). -/
def pyCellStr : Cell → String
  | Cell.na => "nan"
  | Cell.num q => pyFloatStr q
  | Cell.str s => s

/-- Python `str` of a `PyVal`. -/
def pvStr : PyVal → String
  | PyVal.none => "None"
  | PyVal.num q => pyFloatStr q
  | PyVal.str s => s

/-- Python truthiness of a `PyVal` (`None`, `0.0` and `""` are falsy). -/
def pytruthy : PyVal → Bool
  | PyVal.none => false
  | PyVal.num q => decide (q ≠ 0)
  | PyVal.str s => decide (s ≠ "")

/-- Sequencing of fallible computations (Python statement order with
exceptions propagating). -/
def ebind {α β : Type} (x : Except Unit α) (f : α → Except Unit β) : Except Unit β :=
  match x with
  | Except.error e => Except.error e
  | Except.ok a => f a

/-- `get_value(data, key, default, number=False)`: returns the default when
the key is absent or the cell is missing, else `str(data[key]).strip()`.
This branch of the source `get_value` never raises. -/
def get_value_str (data : SubRow) (key : String) (default : PyVal) : PyVal :=
  match data.find? (fun p => p.1 == key) with
  | Option.none => default
  | some p =>
    match p.2 with
    | Cell.na => default
    | Cell.num q => PyVal.str (pyTrim (pyFloatStr q))
    | Cell.str s => PyVal.str (pyTrim s)

/-- `get_value(data, key, default, number=True)`: returns the default when the
key is absent or the cell is missing, else `float(data[key])`; raises
(`Except.error`) when the cell holds a non-numeric string. -/
def get_value_num (data : SubRow) (key : String) (default : PyVal) : Except Unit PyVal :=
  match data.find? (fun p => p.1 == key) with
  | Option.none => Except.ok default
  | some p =>
    match p.2 with
    | Cell.na => Except.ok default
    | Cell.num q => Except.ok (PyVal.num q)
    | Cell.str s =>
      match parseFloat? s with
      | some q => Except.ok (PyVal.num q)
      | Option.none => Except.error ()

/-- `convert_quantity(value, factor)`: `float(value) * factor`, `None` when
the conversion raises (`None` input or non-numeric string). -/
def convert_quantity (value : PyVal) (factor : ℚ) : Option ℚ :=
  match value with
  | PyVal.none => Option.none
  | PyVal.num q => some (q * factor)
  | PyVal.str s =>
    match parseFloat? s with
    | some q => some (q * factor)
    | Option.none => Option.none

/-- Modelled from the spec: `nomad.utils.hash` is external to this repository
("identifier hashing ... is external and out of scope"); the spec requires of
it only that the reference string be stable, so it is modelled as a concrete
deterministic encoding of its two arguments. -/
def nomadHash (upload_id file_name : String) : String :=
  upload_id ++ "-" ++ file_name

/-- `get_entry_id_from_file_name(file_name, upload_id) = hash(upload_id, file_name)`. -/
def get_entry_id_from_file_name (file_name upload_id : String) : String :=
  nomadHash upload_id file_name

/-- `get_reference(upload_id, file_name)`. -/
def get_reference (upload_id file_name : String) : String :=
  "../uploads/" ++ upload_id ++ "/archive/" ++
    get_entry_id_from_file_name file_name upload_id ++ "#data"

/-- Python `'pat' in s` (substring containment). -/
def strContains (s pat : String) : Bool :=
  containsSubL pat.data s.data

/-- Insertion into a `<`-sorted list of strings. -/
def insertStr (s : String) : List String → List String
  | [] => [s]
  | x :: xs => if ltL s.data x.data then s :: x :: xs else x :: insertStr s xs

/-- Python `sorted` on strings (code-point lexicographic). -/
def sortStrings : List String → List String
  | [] => []
  | x :: xs => insertStr x (sortStrings xs)

/-! ## Record structures (the fields the source actually sets) -/

structure CompositeSystemReference where
  reference : String
  lab_id : Cell
deriving DecidableEq

structure LayerProperties where
  layer_type : PyVal
  layer_material_name : PyVal
deriving DecidableEq

/-- `PubChemPureSubstanceSectionCustom(name=..., load_data=False)`; the
constant `load_data=False` argument is not modelled. -/
structure PubChemSubstance where
  name : PyVal
deriving DecidableEq

structure SolutionChemical where
  chemical_2 : PubChemSubstance
  chemical_volume : Option ℚ
  concentration_mol : Option ℚ
deriving DecidableEq

structure SolutionRec where
  solvent : List SolutionChemical
  solute : List SolutionChemical
deriving DecidableEq

structure PrecursorSolution where
  solution_details : SolutionRec
  solution_volume : Option ℚ
deriving DecidableEq

structure AnnealingRec where
  temperature : PyVal
  time : Option ℚ
  atmosphere : PyVal
deriving DecidableEq

structure SpinCoatingRecipeSteps where
  speed : PyVal
  time : PyVal
  acceleration : PyVal
deriving DecidableEq

inductive Quenching where
  | antiSolvent (anti_solvent_volume anti_solvent_dropping_time : PyVal)
      (anti_solvent_dropping_height anti_solvent_dropping_flow_rate : PyVal)
      (anti_solvent_2 : PubChemSubstance)
  | vacuum (start_time duration pressure : PyVal)
  | gasNozzle (starting_delay flow_rate height duration pressure velocity : PyVal)
      (nozzle_shape nozzle_size gas : PyVal)
deriving DecidableEq

structure SpinCoatingRec where
  name : String
  location : PyVal
  positon_in_experimental_plan : ℕ
  description : PyVal
  samples : List CompositeSystemReference
  layer : List LayerProperties
  solution : List PrecursorSolution
  annealing : AnnealingRec
  recipe_steps : List SpinCoatingRecipeSteps
  quenching : Option Quenching
deriving DecidableEq

/-- The evaporation sub-section: `OrganicEvaporation` carries `temparature`
(sic), `InorganicEvaporation` does not (modelled as `Option.none`); the
fields assigned after construction are `thickness`, `start_rate`,
`chemical_2`. -/
structure EvapSection where
  temparature : Option (List PyVal)
  thickness : PyVal
  start_rate : PyVal
  chemical_2 : PubChemSubstance
deriving DecidableEq

structure EvaporationRec where
  name : String
  location : PyVal
  positon_in_experimental_plan : ℕ
  description : PyVal
  samples : List CompositeSystemReference
  layer : List LayerProperties
  inorganic_evaporation : List EvapSection
  organic_evaporation : List EvapSection
deriving DecidableEq

structure SolutionCleaning where
  time : PyVal
  temperature : PyVal
  solvent_2 : PubChemSubstance
deriving DecidableEq

structure UVCleaning where
  time : PyVal
deriving DecidableEq

structure PlasmaCleaning where
  time : PyVal
  power : PyVal
  plasma_type : PyVal
deriving DecidableEq

structure CleaningRec where
  name : String
  positon_in_experimental_plan : ℕ
  location : PyVal
  description : PyVal
  samples : List CompositeSystemReference
  cleaning : List SolutionCleaning
  cleaning_uv : List UVCleaning
  cleaning_plasma : List PlasmaCleaning
deriving DecidableEq

structure SputteringProcess where
  thickness : PyVal
  gas_flow_rate : PyVal
  rotation_rate : PyVal
  power : PyVal
  temperature : PyVal
  deposition_time : PyVal
  burn_in_time : PyVal
  pressure : PyVal
  target_2 : PubChemSubstance
  gas_2 : PubChemSubstance
deriving DecidableEq

structure SputteringRec where
  name : String
  positon_in_experimental_plan : ℕ
  location : PyVal
  description : PyVal
  samples : List CompositeSystemReference
  layer : List LayerProperties
  processes : List SputteringProcess
deriving DecidableEq

structure PrintHeadProperties where
  number_of_active_print_nozzles : PyVal
  print_nozzle_drop_frequency : PyVal
  print_nozzle_drop_volume : PyVal
  print_head_temperature : PyVal
  print_head_name : PyVal
deriving DecidableEq

structure InkjetPrintingProperties where
  print_head_properties : PrintHeadProperties
  cartridge_pressure : PyVal
  substrate_temperature : PyVal
  drop_density : PyVal
  printed_area : PyVal
deriving DecidableEq

structure PrintHeadPath where
  quality_factor : PyVal
deriving DecidableEq

structure AtmosphereRec where
  relative_humidity : PyVal
deriving DecidableEq

structure InkjetRec where
  name : String
  location : PyVal
  positon_in_experimental_plan : ℕ
  description : PyVal
  samples : List CompositeSystemReference
  solution : List PrecursorSolution
  layer : List LayerProperties
  properties : InkjetPrintingProperties
  print_head_path : PrintHeadPath
  atmosphere : AtmosphereRec
  annealing : AnnealingRec
deriving DecidableEq

structure DipCoatingProperties where
  time : Option ℚ
deriving DecidableEq

structure DipCoatingRec where
  name : String
  location : PyVal
  positon_in_experimental_plan : ℕ
  description : PyVal
  samples : List CompositeSystemReference
  solution : List PrecursorSolution
  layer : List LayerProperties
  properties : DipCoatingProperties
  annealing : AnnealingRec
deriving DecidableEq

structure ALDMaterial where
  material : PubChemSubstance
  pulse_duration : PyVal
  manifold_temperature : PyVal
  bottle_temperature : PyVal
deriving DecidableEq

structure ALDProperties where
  source : PyVal
  thickness : PyVal
  temperature : PyVal
  rate : PyVal
  time : PyVal
  number_of_cycles : PyVal
  material : ALDMaterial
  oxidizer_reducer : ALDMaterial
deriving DecidableEq

structure ALDRec where
  name : String
  location : PyVal
  positon_in_experimental_plan : ℕ
  description : PyVal
  samples : List CompositeSystemReference
  layer : List LayerProperties
  properties : ALDProperties
deriving DecidableEq

structure GenericRec where
  name : PyVal
  positon_in_experimental_plan : ℕ
  description : PyVal
  samples : List CompositeSystemReference
deriving DecidableEq

structure SubstrateRec where
  name : String
  solar_cell_area : PyVal
  substrate : PyVal
  conducting_material : List PyVal
deriving DecidableEq

structure SampleRec where
  name : Cell
  lab_id : Cell
  substrate : String
  description : PyVal
deriving DecidableEq

structure BatchRec where
  name : String
  lab_id : String
  entities : List CompositeSystemReference
deriving DecidableEq

inductive Record where
  | batch (b : BatchRec)
  | sample (s : SampleRec)
  | substrate (s : SubstrateRec)
  | spinCoating (r : SpinCoatingRec)
  | evaporation (r : EvaporationRec)
  | cleaning (r : CleaningRec)
  | generic (r : GenericRec)
  | inkjet (r : InkjetRec)
  | dipCoating (r : DipCoatingRec)
  | sputtering (r : SputteringRec)
  | ald (r : ALDRec)
deriving DecidableEq

/-- Process records (everything the per-column-group loop of `parse` creates). -/
def isProc : Record → Bool
  | Record.spinCoating _ => true
  | Record.evaporation _ => true
  | Record.cleaning _ => true
  | Record.generic _ => true
  | Record.inkjet _ => true
  | Record.dipCoating _ => true
  | Record.sputtering _ => true
  | Record.ald _ => true
  | _ => false

/-- The `samples` list of a process record. -/
def recSamples : Record → List CompositeSystemReference
  | Record.spinCoating r => r.samples
  | Record.evaporation r => r.samples
  | Record.cleaning r => r.samples
  | Record.generic r => r.samples
  | Record.inkjet r => r.samples
  | Record.dipCoating r => r.samples
  | Record.sputtering r => r.samples
  | Record.ald r => r.samples
  | _ => []

/-- The per-lab-id sample reference each mapper builds:
`CompositeSystemReference(reference=get_reference(upload_id, f'{lab_id}.archive.json'), lab_id=lab_id)`. -/
def mkRefs (u : String) (labs : List Cell) : List CompositeSystemReference :=
  labs.map (fun l =>
    { reference := get_reference u (pyCellStr l ++ ".archive.json"), lab_id := l })

/-! ## Row-to-record mappers -/

/-- Raw `data[key]` access on a Series (KeyError when the key is absent). -/
def lookupCellE (r : SubRow) (key : String) : Except Unit Cell :=
  match r.find? (fun p => p.1 == key) with
  | some p => Except.ok p.2
  | Option.none => Except.error ()

/-- Monadic map that concatenates list results (embeds a Python loop whose
body appends zero or more items and may raise). -/
def mapMFlat {α β : Type} (f : α → Except Unit (List β)) : List α → Except Unit (List β)
  | [] => Except.ok []
  | x :: xs =>
    ebind (f x) fun ys =>
    ebind (mapMFlat f xs) fun rest =>
    Except.ok (ys ++ rest)

/-- Monadic map, one result per element. -/
def mapME {α β : Type} (f : α → Except Unit β) : List α → Except Unit (List β)
  | [] => Except.ok []
  | x :: xs =>
    ebind (f x) fun y =>
    ebind (mapME f xs) fun rest =>
    Except.ok (y :: rest)

/-- `map_basic_sample(data, substrate_name, upload_id)`; raises on a missing
'Nomad ID' column. -/
def map_basic_sample (data : SubRow) (substrate_name : String) (upload_id : String) :
    Except Unit (Cell × SampleRec) :=
  ebind (lookupCellE data "Nomad ID") fun nid =>
  Except.ok (nid,
    { name := nid
      lab_id := nid
      substrate := get_reference upload_id substrate_name
      description := get_value_str data "Variation" PyVal.none })

/-- `map_batch(batch_ids, batch_id, upload_id)`. -/
def map_batch (batch_ids : List Cell) (batch_id : String) (upload_id : String) : BatchRec :=
  { name := batch_id
    lab_id := batch_id
    entities := mkRefs upload_id batch_ids }

/-- First two space-separated tokens of a column name:
`' '.join(col.split(' ')[:2])`. -/
def firstTwoTokens (col : String) : String :=
  pyJoin ' ' ((pySplit col ' ').take 2)

/-- The sorted, deduplicated solvent/solute column-name stems of a row
(`sorted(set(...))` over columns starting with the given stem). -/
def solutionStems (data : SubRow) (stem : String) : List String :=
  sortStrings
    ((((data.map (fun p => p.1)).filter
        (fun c => pyStartsWith (pyLower c) stem)).map firstTwoTokens).eraseDups)

/-- One solvent entry of `map_solutions` (skipped when both the name and the
volume are falsy). -/
def solventEntry (data : SubRow) (p : String) : Except Unit (List SolutionChemical) :=
  let nameV := get_value_str data (p ++ " name") PyVal.none
  ebind (get_value_num data (p ++ " volume [uL]") PyVal.none) fun volV =>
  if !(pytruthy nameV) && !(pytruthy volV) then Except.ok []
  else Except.ok [{ chemical_2 := { name := nameV }
                    chemical_volume := convert_quantity volV (1 / 1000)
                    concentration_mol := Option.none }]

/-- One solute entry of `map_solutions`. -/
def soluteEntry (data : SubRow) (p : String) : Except Unit (List SolutionChemical) :=
  let nameV := get_value_str data (p ++ " type") PyVal.none
  ebind (get_value_num data (p ++ " Concentration [mM]") PyVal.none) fun conV =>
  if !(pytruthy nameV) && !(pytruthy conV) then Except.ok []
  else Except.ok [{ chemical_2 := { name := nameV }
                    chemical_volume := Option.none
                    concentration_mol := convert_quantity conV (1 / 1000) }]

/-- `map_solutions(data)`. -/
def map_solutions (data : SubRow) : Except Unit SolutionRec :=
  ebind (mapMFlat (solventEntry data) (solutionStems data "solvent")) fun solvs =>
  ebind (mapMFlat (soluteEntry data) (solutionStems data "solute")) fun sols =>
  Except.ok { solvent := solvs, solute := sols }

/-- Condition of the anti-solvent branch of `map_spin_coating`. -/
def antiCond (d : SubRow) : Bool :=
  pytruthy (get_value_str d "Anti solvent name" PyVal.none)

/-- Condition of the vacuum-quenching branch (note: `number=False`). -/
def vacCond (d : SubRow) : Bool :=
  pytruthy (get_value_str d "Vacuum quenching duration [s]" PyVal.none)

/-- Condition of the gas-quenching branch. -/
def gasCond (d : SubRow) : Bool :=
  pytruthy (get_value_str d "Gas" PyVal.none)

/-- The `AntiSolventQuenching` section built by `map_spin_coating`. -/
def antiQuench (d : SubRow) : Except Unit Quenching :=
  ebind (get_value_num d "Anti solvent volume [ml]" PyVal.none) fun v =>
  ebind (get_value_num d "Anti solvent dropping time [s]" PyVal.none) fun t =>
  ebind (get_value_num d "Anti solvent dropping heigt [mm]" PyVal.none) fun h =>
  ebind (get_value_num d "Anti solvent dropping speed [ul/s]" PyVal.none) fun fr =>
  Except.ok (Quenching.antiSolvent v t h fr
    { name := get_value_str d "Anti solvent name" PyVal.none })

/-- The `VacuumQuenching` section built by `map_spin_coating`. -/
def vacQuench (d : SubRow) : Except Unit Quenching :=
  ebind (get_value_num d "Vacuum quenching start time [s]" PyVal.none) fun st =>
  ebind (get_value_num d "Vacuum quenching duration [s]" PyVal.none) fun du =>
  ebind (get_value_num d "Vacuum quenching pressure [bar]" PyVal.none) fun pr =>
  Except.ok (Quenching.vacuum st du pr)

/-- The `GasQuenchingWithNozzle` section built by `map_spin_coating`. -/
def gasQuench (d : SubRow) : Except Unit Quenching :=
  ebind (get_value_num d "Gas quenching start time [s]" PyVal.none) fun sd =>
  ebind (get_value_num d "Gas quenching flow rate [ml/s]" PyVal.none) fun fr =>
  ebind (get_value_num d "Gas quenching height [mm]" PyVal.none) fun he =>
  ebind (get_value_num d "Gas quenching duration [s]" PyVal.none) fun du =>
  ebind (get_value_num d "Gas quenching pressure [bar]" PyVal.none) fun pr =>
  ebind (get_value_num d "Gas quenching velocity [m/s]" PyVal.none) fun ve =>
  Except.ok (Quenching.gasNozzle sd fr he du pr ve
    (get_value_str d "Nozzle shape" PyVal.none)
    (get_value_str d "Nozzle size [mm²]" PyVal.none)
    (get_value_str d "Gas" PyVal.none))

/-- The three sequential `archive.quenching = ...` overwrites of
`map_spin_coating` (each branch runs, in order, when its condition holds). -/
def quenchingOf (d : SubRow) : Except Unit (Option Quenching) :=
  ebind (if antiCond d then ebind (antiQuench d) (fun q => Except.ok (some q))
         else Except.ok Option.none) fun q0 =>
  ebind (if vacCond d then ebind (vacQuench d) (fun q => Except.ok (some q))
         else Except.ok q0) fun q1 =>
  if gasCond d then ebind (gasQuench d) (fun q => Except.ok (some q))
  else Except.ok q1

/-- One element of the `recipe_steps` comprehension: the step is included
when `get_value(data, f'Rotation time {step}[s]')` is truthy. -/
def recipeStepOne (data : SubRow) (step : String) : Except Unit (List SpinCoatingRecipeSteps) :=
  ebind (get_value_num data ("Rotation time " ++ step ++ "[s]") PyVal.none) fun tcond =>
  if pytruthy tcond then
    ebind (get_value_num data ("Rotation speed " ++ step ++ "[rpm]") PyVal.none) fun sp =>
    ebind (get_value_num data ("Rotation time " ++ step ++ "[s]") PyVal.none) fun tm =>
    ebind (get_value_num data ("Acceleration " ++ step ++ "[rpm/s]") PyVal.none) fun ac =>
    Except.ok [{ speed := sp, time := tm, acceleration := ac }]
  else Except.ok []

/-- The `recipe_steps` list of `map_spin_coating`. -/
def recipeSteps (data : SubRow) : Except Unit (List SpinCoatingRecipeSteps) :=
  mapMFlat (recipeStepOne data) ["", "1 ", "2 ", "3 ", "4 "]

/-- `map_spin_coating(i, j, lab_ids, data, upload_id)`. -/
def map_spin_coating (i j : ℕ) (lab_ids : List Cell) (data : SubRow) (upload_id : String) :
    Except Unit (Cell × SpinCoatingRec) :=
  ebind (map_solutions data) fun soldet =>
  ebind (get_value_num data "Solution volume [um]" PyVal.none) fun solvol =>
  ebind (get_value_num data "Annealing temperature [°C]" PyVal.none) fun annT =>
  ebind (get_value_num data "Annealing time [min]" PyVal.none) fun annTm =>
  ebind (recipeSteps data) fun steps =>
  ebind (quenchingOf data) fun q =>
  Except.ok
    (Cell.str (toString i ++ "_" ++ toString j ++ "_spin_coating_" ++
      pvStr (get_value_str data "Material name" (PyVal.str ""))),
    { name := "spin coating " ++ pvStr (get_value_str data "Material name" (PyVal.str ""))
      location := get_value_str data "Tool/GB name" (PyVal.str "")
      positon_in_experimental_plan := i
      description := get_value_str data "Notes" (PyVal.str "")
      samples := mkRefs upload_id lab_ids
      layer := [{ layer_type := get_value_str data "Layer type" PyVal.none
                  layer_material_name := get_value_str data "Material name" PyVal.none }]
      solution := [{ solution_details := soldet
                     solution_volume := convert_quantity solvol (1 / 1000) }]
      annealing := { temperature := annT
                     time := convert_quantity annTm 60
                     atmosphere := get_value_str data "Annealing athmosphere" PyVal.none }
      recipe_steps := steps
      quenching := q })

/-- The lower-cased stripped 'Organic' cell string used by `map_evaporation`
(`get_value(data, 'Organic', '', False).lower()`). -/
def organicStr (data : SubRow) : String :=
  pyLower (pvStr (get_value_str data "Organic" (PyVal.str "")))

/-- `map_evaporation(i, j, lab_ids, data, upload_id)`: when the 'Organic'
string starts with neither 'n'/'0' nor 'y'/'1', `evaporation` stays `None`
and the subsequent `evaporation.thickness = ...` raises. -/
def map_evaporation (i j : ℕ) (lab_ids : List Cell) (data : SubRow) (upload_id : String) :
    Except Unit (Cell × EvaporationRec) :=
  let org := organicStr data
  let nFlag := pyStartsWith org "n" || pyStartsWith org "0"
  let yFlag := pyStartsWith org "y" || pyStartsWith org "1"
  let base : EvaporationRec :=
    { name := "evaporation " ++ pvStr (get_value_str data "Material name" (PyVal.str ""))
      location := get_value_str data "Tool/GB name" (PyVal.str "")
      positon_in_experimental_plan := i
      description := get_value_str data "Notes" (PyVal.str "")
      samples := mkRefs upload_id lab_ids
      layer := [{ layer_type := get_value_str data "Layer type" PyVal.none
                  layer_material_name := get_value_str data "Material name" PyVal.none }]
      inorganic_evaporation := []
      organic_evaporation := [] }
  let key := Cell.str (toString i ++ "_" ++ toString j ++ "_evaporation_" ++
    pvStr (get_value_str data "Material name" (PyVal.str "")))
  ebind (get_value_num data "Thickness [nm]" PyVal.none) fun th =>
  ebind (get_value_num data "Rate [angstrom/s]" PyVal.none) fun ra =>
  if yFlag then
    ebind (get_value_num data "Temperature [°C]" PyVal.none) fun tv =>
    Except.ok (key,
      { base with organic_evaporation :=
          [{ temparature := if pytruthy tv then some [tv, tv] else Option.none
             thickness := th
             start_rate := ra
             chemical_2 := { name := get_value_str data "Material name" PyVal.none } }] })
  else if nFlag then
    Except.ok (key,
      { base with inorganic_evaporation :=
          [{ temparature := Option.none
             thickness := th
             start_rate := ra
             chemical_2 := { name := get_value_str data "Material name" PyVal.none } }] })
  else Except.error ()

/-- `map_cleaning(i, j, lab_ids, data, upload_id)`; the comprehension index
over `range(10)` shadows the outer `i` only inside the comprehension. -/
def map_cleaning (i j : ℕ) (lab_ids : List Cell) (data : SubRow) (upload_id : String) :
    Except Unit (Cell × CleaningRec) :=
  ebind (mapMFlat (fun n =>
      if pytruthy (get_value_str data ("Solvent " ++ toString n) PyVal.none) then
        ebind (get_value_num data ("Time " ++ toString n ++ " [s]") PyVal.none) fun tv =>
        ebind (get_value_num data ("Temperature " ++ toString n ++ " [°C]") PyVal.none) fun tp =>
        Except.ok [({ time := tv
                      temperature := tp
                      solvent_2 :=
                        { name := get_value_str data ("Solvent " ++ toString n) PyVal.none } }
                    : SolutionCleaning)]
      else Except.ok []) (List.range 10)) fun cleans =>
  ebind (get_value_num data "UV-Ozone Time [s]" PyVal.none) fun uv =>
  ebind (get_value_num data "Gas-Plasma Time [s]" PyVal.none) fun pt =>
  ebind (get_value_num data "Gas-Plasma Power [W]" PyVal.none) fun pw =>
  Except.ok (Cell.str (toString i ++ "_" ++ toString j ++ "_cleaning"),
    { name := "Cleaning"
      positon_in_experimental_plan := i
      location := get_value_str data "Tool/GB name" (PyVal.str "")
      description := get_value_str data "Notes" (PyVal.str "")
      samples := mkRefs upload_id lab_ids
      cleaning := cleans
      cleaning_uv := [{ time := uv }]
      cleaning_plasma := [{ time := pt
                            power := pw
                            plasma_type := get_value_str data "Gas-Plasma Gas" PyVal.none }] })

/-- `map_generic(i, j, lab_ids, data, upload_id)` (no fallible call). -/
def map_generic (i j : ℕ) (lab_ids : List Cell) (data : SubRow) (upload_id : String) :
    Cell × GenericRec :=
  (Cell.str (toString i ++ "_" ++ toString j ++ "_generic_process"),
    { name := get_value_str data "Name" (PyVal.str "")
      positon_in_experimental_plan := i
      description := get_value_str data "Notes" (PyVal.str "")
      samples := mkRefs upload_id lab_ids })

/-- `map_inkjet_printing(i, j, lab_ids, data, upload_id)`. -/
def map_inkjet_printing (i j : ℕ) (lab_ids : List Cell) (data : SubRow) (upload_id : String) :
    Except Unit (Cell × InkjetRec) :=
  ebind (map_solutions data) fun soldet =>
  ebind (get_value_num data "Solution volume [um]" PyVal.none) fun solvol =>
  ebind (get_value_num data "Number of active nozzles" PyVal.none) fun nozzles =>
  ebind (get_value_num data "Droplet per second [1/s]" PyVal.none) fun dfreq =>
  ebind (get_value_num data "Droplet volume [pl]" PyVal.none) fun dvol =>
  ebind (get_value_num data "Nozzle temperature [°C]" PyVal.none) fun ntemp =>
  ebind (get_value_num data "Ink reservoir pressure [bar]" PyVal.none) fun cpress =>
  ebind (get_value_num data "Table temperature [°C]" PyVal.none) fun ttemp =>
  ebind (get_value_num data "Droplet density [dpi]" PyVal.none) fun dd =>
  ebind (get_value_num data "Printed area [mm²]" PyVal.none) fun pa =>
  ebind (get_value_num data "rel. humidity [%]" PyVal.none) fun rh =>
  ebind (get_value_num data "Annealing temperature [°C]" PyVal.none) fun annT =>
  ebind (get_value_num data "Annealing time [min]" PyVal.none) fun annTm =>
  Except.ok (Cell.str (toString i ++ "_" ++ toString j ++ "_inkjet_printing_" ++
      pvStr (get_value_str data "Material name" (PyVal.str ""))),
    { name := "inkjet printing " ++ pvStr (get_value_str data "Material name" (PyVal.str ""))
      location := get_value_str data "Tool/GB name" (PyVal.str "")
      positon_in_experimental_plan := i
      description := get_value_str data "Notes" PyVal.none
      samples := mkRefs upload_id lab_ids
      solution := [{ solution_details := soldet
                     solution_volume := convert_quantity solvol (1 / 1000) }]
      layer := [{ layer_type := get_value_str data "Layer type" PyVal.none
                  layer_material_name := get_value_str data "Material name" PyVal.none }]
      properties :=
        { print_head_properties :=
            { number_of_active_print_nozzles := nozzles
              print_nozzle_drop_frequency := dfreq
              print_nozzle_drop_volume := dvol
              print_head_temperature := ntemp
              print_head_name := get_value_str data "Printhead name" PyVal.none }
          cartridge_pressure := cpress
          substrate_temperature := ttemp
          drop_density := dd
          printed_area := pa }
      print_head_path := { quality_factor := get_value_str data "Quality factor" PyVal.none }
      atmosphere := { relative_humidity := rh }
      annealing := { temperature := annT
                     time := convert_quantity annTm 60
                     atmosphere := get_value_str data "Annealing athmosphere" PyVal.none } })

/-- `map_dip_coating(i, j, lab_ids, data, upload_id)`. -/
def map_dip_coating (i j : ℕ) (lab_ids : List Cell) (data : SubRow) (upload_id : String) :
    Except Unit (Cell × DipCoatingRec) :=
  ebind (map_solutions data) fun soldet =>
  ebind (get_value_num data "Solution volume [um]" PyVal.none) fun solvol =>
  ebind (get_value_num data "Dipping duration [s]" PyVal.none) fun dip =>
  ebind (get_value_num data "Annealing temperature [°C]" PyVal.none) fun annT =>
  ebind (get_value_num data "Annealing time [min]" PyVal.none) fun annTm =>
  Except.ok (Cell.str (toString i ++ "_" ++ toString j ++ "_dip_coating_" ++
      pvStr (get_value_str data "Material name" (PyVal.str ""))),
    { name := "dip coating " ++ pvStr (get_value_str data "Material name" (PyVal.str ""))
      location := get_value_str data "Tool/GB name" (PyVal.str "")
      positon_in_experimental_plan := i
      description := get_value_str data "Notes" PyVal.none
      samples := mkRefs upload_id lab_ids
      solution := [{ solution_details := soldet
                     solution_volume := convert_quantity solvol (1 / 1000) }]
      layer := [{ layer_type := get_value_str data "Layer type" PyVal.none
                  layer_material_name := get_value_str data "Material name" PyVal.none }]
      properties := { time := convert_quantity dip (1 / 60) }
      annealing := { temperature := annT
                     time := convert_quantity annTm 60
                     atmosphere := get_value_str data "Annealing athmosphere" PyVal.none } })

/-- `map_sputtering(i, j, lab_ids, data, upload_id)`. -/
def map_sputtering (i j : ℕ) (lab_ids : List Cell) (data : SubRow) (upload_id : String) :
    Except Unit (Cell × SputteringRec) :=
  ebind (get_value_num data "Thickness [nm]" PyVal.none) fun th =>
  ebind (get_value_num data "Gas flow rate [cm^3/min]" PyVal.none) fun gfr =>
  ebind (get_value_num data "Rotation rate [rpm]" PyVal.none) fun rr =>
  ebind (get_value_num data "Power [W]" PyVal.none) fun pw =>
  ebind (get_value_num data "Temperature [°C]" PyVal.none) fun te =>
  ebind (get_value_num data "Deposition time [s]" PyVal.none) fun dt =>
  ebind (get_value_num data "Burn in time [s]" PyVal.none) fun bt =>
  ebind (get_value_num data "Pressure [mbar]" PyVal.none) fun pr =>
  Except.ok (Cell.str (toString i ++ "_" ++ toString j ++ "_sputtering_" ++
      pvStr (get_value_str data "Material name" (PyVal.str ""))),
    { name := "sputtering " ++ pvStr (get_value_str data "Material name" (PyVal.str ""))
      positon_in_experimental_plan := i
      location := get_value_str data "Tool/GB name" (PyVal.str "")
      description := get_value_str data "Notes" (PyVal.str "")
      samples := mkRefs upload_id lab_ids
      layer := [{ layer_type := get_value_str data "Layer type" PyVal.none
                  layer_material_name := get_value_str data "Material name" PyVal.none }]
      processes := [{ thickness := th
                      gas_flow_rate := gfr
                      rotation_rate := rr
                      power := pw
                      temperature := te
                      deposition_time := dt
                      burn_in_time := bt
                      pressure := pr
                      target_2 := { name := get_value_str data "Material name" PyVal.none }
                      gas_2 := { name := get_value_str data "Gas" PyVal.none } }] })

/-- `map_atomic_layer_deposition(i, j, lab_ids, data, upload_id)`. -/
def map_atomic_layer_deposition (i j : ℕ) (lab_ids : List Cell) (data : SubRow)
    (upload_id : String) : Except Unit (Cell × ALDRec) :=
  ebind (get_value_num data "Thickness [nm]" PyVal.none) fun th =>
  ebind (get_value_num data "Temperature [°C]" PyVal.none) fun te =>
  ebind (get_value_num data "Rate [A/s]" PyVal.none) fun ra =>
  ebind (get_value_num data "Time [s]" PyVal.none) fun tm =>
  ebind (get_value_num data "Number of cycles" PyVal.none) fun nc =>
  ebind (get_value_num data "Pulse duration 1 [s]" PyVal.none) fun pd1 =>
  ebind (get_value_num data "Manifold temperature 1 [°C]" PyVal.none) fun mt1 =>
  ebind (get_value_num data "Bottle temperature 1 [°C]" PyVal.none) fun bt1 =>
  ebind (get_value_num data "Pulse duration 2 [s]" PyVal.none) fun pd2 =>
  ebind (get_value_num data "Manifold temperature 2 [°C]" PyVal.none) fun mt2 =>
  Except.ok (Cell.str (toString i ++ "_" ++ toString j ++ "_ALD_" ++
      pvStr (get_value_str data "Material name" (PyVal.str ""))),
    { name := "atomic layer deposition " ++
        pvStr (get_value_str data "Material name" (PyVal.str ""))
      location := get_value_str data "Tool/GB name" (PyVal.str "")
      positon_in_experimental_plan := i
      description := get_value_str data "Notes" (PyVal.str "")
      samples := mkRefs upload_id lab_ids
      layer := [{ layer_type := get_value_str data "Layer type" PyVal.none
                  layer_material_name := get_value_str data "Material name" PyVal.none }]
      properties :=
        { source := get_value_str data "Source" PyVal.none
          thickness := th
          temperature := te
          rate := ra
          time := tm
          number_of_cycles := nc
          material := { material := { name := get_value_str data "Precursor 1" PyVal.none }
                        pulse_duration := pd1
                        manifold_temperature := mt1
                        bottle_temperature := bt1 }
          oxidizer_reducer :=
            { material :=
                { name := get_value_str data "Precursor 2 (Oxidizer/Reducer)" PyVal.none }
              pulse_duration := pd2
              manifold_temperature := mt2
              bottle_temperature := PyVal.none } } })

/-- `map_substrate(data)`; `solar_cell_area` uses `number=True` with a string
default, so it can raise on a non-numeric string cell. -/
def map_substrate (data : SubRow) : Except Unit SubstrateRec :=
  ebind (get_value_num data "Sample area [cm^2]" (PyVal.str "")) fun area =>
  Except.ok
    { name := "Substrate " ++
        pvStr (get_value_str data "Sample dimension" (PyVal.str "")) ++ " " ++
        pvStr (get_value_str data "Substrate material" (PyVal.str "")) ++ " " ++
        pvStr (get_value_str data "Substrate conductive layer" (PyVal.str ""))
      solar_cell_area := area
      substrate := get_value_str data "Substrate material" (PyVal.str "")
      conducting_material := [get_value_str data "Substrate conductive layer" (PyVal.str "")] }

/-! ## The two-level-header table and `PeroTFExperimentParser.parse` -/

/-- A two-level-header spreadsheet: top-level column groups, each with its
sub-column names, and rows whose cell blocks align with the groups.  (Rows of
a pandas frame are rectangular; a ragged row is read with `Cell.na`
padding.) -/
structure Table where
  groups : List (String × List String)
  rows : List (List (List Cell))
deriving DecidableEq

/-- `df[g]` for a top-level group `g`, as rows of (sub-column, cell) pairs;
KeyError when the group is absent. -/
def subRowsE (t : Table) (g : String) : Except Unit (List SubRow) :=
  match t.groups.findIdx? (fun p => p.1 == g) with
  | Option.none => Except.error ()
  | some k =>
    Except.ok (t.rows.map (fun r => ((t.groups.getD k ("", [])).2.zip (r.getD k []))))

/-- `df['Experiment Info']['Nomad ID'].dropna().to_list()`; KeyError when the
group or the sub-column is absent. -/
def sampleIdCells (t : Table) : Except Unit (List Cell) :=
  match t.groups.findIdx? (fun p => p.1 == "Experiment Info") with
  | Option.none => Except.error ()
  | some k =>
    let subcols := (t.groups.getD k ("", [])).2
    if subcols.contains "Nomad ID" then
      Except.ok (((t.rows.map (fun r =>
        (((subcols.zip (r.getD k [])).find? (fun p => p.1 == "Nomad ID")).map
          (fun p => p.2)).getD Cell.na))).filter (fun c => decide (c ≠ Cell.na)))
    else Except.error ()

/-- `'_'.join(sample_ids[0].split('_')[:-1])`; raises (AttributeError) when
the first id is not a string. -/
def batchIdOf : Cell → Except Unit String
  | Cell.str s => Except.ok (pyJoin '_' ((pySplit s '_').dropLast))
  | _ => Except.error ()

/-- The four substrate-identifying columns. -/
def substratesCol : List String :=
  ["Sample dimension", "Sample area [cm^2]", "Substrate material",
   "Substrate conductive layer"]

/-- `row[substrates_col]` projection; KeyError when a column is absent. -/
def projColsE (r : SubRow) : Except Unit (List Cell) :=
  mapME (lookupCellE r) substratesCol

/-- `drop_duplicates` keeping the original row index: retains the first
occurrence of each value not already seen. -/
def dropDupBy {α : Type} [DecidableEq α] : List (ℕ × α) → List α → List (ℕ × α)
  | [], _ => []
  | x :: xs, seen =>
    if x.2 ∈ seen then dropDupBy xs seen else x :: dropDupBy xs (x.2 :: seen)

/-- `pd.isna(sub).all()` for a projected combination. -/
def allNaCells (l : List Cell) : Bool :=
  l.all (fun c => decide (c = Cell.na))

/-- `pd.isna(row).all()` for a sub-row. -/
def allNaRow (r : SubRow) : Bool :=
  r.all (fun p => decide (p.2 = Cell.na))

/-- Projections of all 'Experiment Info' rows, with original indices. -/
def projAll : List (ℕ × SubRow) → Except Unit (List (ℕ × List Cell))
  | [] => Except.ok []
  | p :: ps =>
    ebind (projColsE p.2) fun pr =>
    ebind (projAll ps) fun rest =>
    Except.ok ((p.1, pr) :: rest)

/-- The substrate loop of `parse`: over the deduplicated combinations, skip
the all-missing ones and build `(f'{i}_substrate', sub, map_substrate(sub))`. -/
def buildSubstrates : List (ℕ × List Cell) → Except Unit (List (String × List Cell × SubstrateRec))
  | [] => Except.ok []
  | p :: ps =>
    if allNaCells p.2 then buildSubstrates ps
    else
      ebind (map_substrate (substratesCol.zip p.2)) fun rec =>
      ebind (buildSubstrates ps) fun rest =>
      Except.ok ((toString p.1 ++ "_substrate", p.2, rec) :: rest)

/-- The deduplicated substrate list of `parse`. -/
def substratesOf (t : Table) : Except Unit (List (String × List Cell × SubstrateRec)) :=
  ebind (subRowsE t "Experiment Info") fun eiRows =>
  ebind (projAll eiRows.enum) fun projs =>
  buildSubstrates (dropDupBy projs [])

/-- `find_substrate(d)`: the stored name of the first substrate whose
combination equals `d` (`None` when there is none). -/
def find_substrate (d : List Cell) :
    List (String × List Cell × SubstrateRec) → Option String
  | [] => Option.none
  | s :: ss => if d = s.2.1 then some s.1 else find_substrate d ss

/-- The sample loop of `parse`: skip all-missing rows, locate the row's
substrate (raising, as `None + '.archive.json'` does, when there is none) and
build the sample archive. -/
def buildSamples (u : String) (subs : List (String × List Cell × SubstrateRec)) :
    List SubRow → Except Unit (List (Cell × Record))
  | [] => Except.ok []
  | row :: rest =>
    if allNaRow row then buildSamples u subs rest
    else
      ebind (projColsE row) fun pr =>
      match find_substrate pr subs with
      | Option.none => Except.error ()
      | some key =>
        ebind (map_basic_sample row (key ++ ".archive.json") u) fun kr =>
        ebind (buildSamples u subs rest) fun more =>
        Except.ok ((kr.1, Record.sample kr.2) :: more)

/-- All sample archives of `parse`. -/
def sampleArchives (t : Table) (u : String)
    (subs : List (String × List Cell × SubstrateRec)) : Except Unit (List (Cell × Record)) :=
  ebind (subRowsE t "Experiment Info") fun eiRows =>
  buildSamples u subs eiRows

/-- `x[col].astype('object').equals(row.astype('object'))` grouping:
the 'Nomad ID' of every table row whose content in the column group equals
the target row. -/
def labIdsE (eiRows gRows : List SubRow) (target : SubRow) : Except Unit (List Cell) :=
  mapME (fun p => lookupCellE p.1 "Nomad ID")
    ((eiRows.zip gRows).filter (fun p => decide (p.2 = target)))

/-- `row.get('Material name')` is missing or NaN (the skip condition of the
later process mappers). -/
def materialNa (row : SubRow) : Bool :=
  match row.find? (fun p => p.1 == "Material name") with
  | Option.none => true
  | some p => decide (p.2 = Cell.na)

/-- The body of the inner process loop: one record per process keyword
contained in the column-group name, with the 'Material name'-guarded mappers
skipped when that cell is missing. -/
def rowRecords (i j : ℕ) (labs : List Cell) (col : String) (row : SubRow) (u : String) :
    Except Unit (List (Cell × Record)) :=
  ebind (if strContains col "Cleaning" then
           ebind (map_cleaning i j labs row u) fun kr =>
           Except.ok [(kr.1, Record.cleaning kr.2)]
         else Except.ok []) fun l1 =>
  ebind (if strContains col "Generic Process" then
           Except.ok [((map_generic i j labs row u).1,
                       Record.generic (map_generic i j labs row u).2)]
         else Except.ok []) fun l2 =>
  if materialNa row then Except.ok (l1 ++ l2)
  else
    ebind (if strContains col "Evaporation" then
             ebind (map_evaporation i j labs row u) fun kr =>
             Except.ok [(kr.1, Record.evaporation kr.2)]
           else Except.ok []) fun l3 =>
    ebind (if strContains col "Spin Coating" then
             ebind (map_spin_coating i j labs row u) fun kr =>
             Except.ok [(kr.1, Record.spinCoating kr.2)]
           else Except.ok []) fun l4 =>
    ebind (if strContains col "Inkjet Printing" then
             ebind (map_inkjet_printing i j labs row u) fun kr =>
             Except.ok [(kr.1, Record.inkjet kr.2)]
           else Except.ok []) fun l5 =>
    ebind (if strContains col "Dip Coating" then
             ebind (map_dip_coating i j labs row u) fun kr =>
             Except.ok [(kr.1, Record.dipCoating kr.2)]
           else Except.ok []) fun l6 =>
    ebind (if strContains col "Sputtering" then
             ebind (map_sputtering i j labs row u) fun kr =>
             Except.ok [(kr.1, Record.sputtering kr.2)]
           else Except.ok []) fun l7 =>
    ebind (if strContains col "ALD" then
             ebind (map_atomic_layer_deposition i j labs row u) fun kr =>
             Except.ok [(kr.1, Record.ald kr.2)]
           else Except.ok []) fun l8 =>
    Except.ok (l1 ++ l2 ++ l3 ++ l4 ++ l5 ++ l6 ++ l7 ++ l8)

/-- The number of process records the inner loop produces for one
deduplicated row. -/
def kwCount (col : String) (row : SubRow) : ℕ :=
  (if strContains col "Cleaning" then 1 else 0) +
  (if strContains col "Generic Process" then 1 else 0) +
  (if materialNa row then 0 else
    (if strContains col "Evaporation" then 1 else 0) +
    (if strContains col "Spin Coating" then 1 else 0) +
    (if strContains col "Inkjet Printing" then 1 else 0) +
    (if strContains col "Dip Coating" then 1 else 0) +
    (if strContains col "Sputtering" then 1 else 0) +
    (if strContains col "ALD" then 1 else 0))

/-- The deduplicated-row loop for one column group. -/
def groupRows (u : String) (i : ℕ) (col : String) (eiRows gRows : List SubRow) :
    List (ℕ × SubRow) → Except Unit (List (Cell × Record))
  | [] => Except.ok []
  | jr :: rest =>
    ebind (labIdsE eiRows gRows jr.2) fun labs =>
    ebind (rowRecords i jr.1 labs col jr.2 u) fun recs =>
    ebind (groupRows u i col eiRows gRows rest) fun more =>
    Except.ok (recs ++ more)

/-- The per-column-group body of the process loop of `parse`. -/
def groupRecords (t : Table) (u : String) (ig : ℕ × String) :
    Except Unit (List (Cell × Record)) :=
  if ig.2 = "Experiment Info" then Except.ok []
  else
    ebind (subRowsE t "Experiment Info") fun eiRows =>
    ebind (subRowsE t ig.2) fun gRows =>
    groupRows u ig.1 ig.2 eiRows gRows (dropDupBy gRows.enum [])

/-- `df.columns.get_level_values(0).unique()`. -/
def uniqueTops (t : Table) : List String :=
  (t.groups.map (fun p => p.1)).eraseDups

/-- The outer process loop of `parse` (`enumerate` over the unique top-level
columns). -/
def processGroups (t : Table) (u : String) :
    List (ℕ × String) → Except Unit (List (Cell × Record))
  | [] => Except.ok []
  | ig :: rest =>
    ebind (groupRecords t u ig) fun l =>
    ebind (processGroups t u rest) fun more =>
    Except.ok (l ++ more)

/-- All process archives of `parse`. -/
def processEntriesOf (t : Table) (u : String) : Except Unit (List (Cell × Record)) :=
  processGroups t u (uniqueTops t).enum

/-- `PeroTFExperimentParser.parse`: the sequence of archives it creates
(substrates first, then the batch, the samples and the process records),
keyed by the stem of the file name each is stored under. -/
def parse (t : Table) (u : String) : Except Unit (List (Cell × Record)) :=
  ebind (sampleIdCells t) fun ids =>
  match ids with
  | [] => Except.error ()
  | first :: _ =>
    ebind (batchIdOf first) fun bid =>
    ebind (substratesOf t) fun subs =>
    ebind (sampleArchives t u subs) fun samps =>
    ebind (processEntriesOf t u) fun procs =>
    Except.ok (subs.map (fun s => (Cell.str s.1, Record.substrate s.2.2)) ++
      [(Cell.str bid, Record.batch (map_batch ids bid u))] ++ samps ++ procs)

/-- `PeroTFExperimentParser.is_mainfile`: the externally inherited
`super().is_mainfile` verdict is a parameter; an unreadable file is
`Option.none`; the try/except returns `False` on any failure. -/
def is_mainfile (superOk : Bool) (file : Option Table) : Bool :=
  if superOk = false then false
  else
    match file with
    | Option.none => false
    | some t =>
      match sampleIdCells t with
      | Except.error _ => false
      | Except.ok _ => true

/-! ## Concrete inputs used to instantiate the theorems -/

/-- Which quenching section (if any) is stored: 0 none, 1 anti-solvent,
2 vacuum, 3 gas. -/
def quenchKind : Option Quenching → ℕ
  | Option.none => 0
  | some (Quenching.antiSolvent _ _ _ _ _) => 1
  | some (Quenching.vacuum _ _ _) => 2
  | some (Quenching.gasNozzle _ _ _ _ _ _ _ _ _) => 3

/-- A sheet with one sample row and a process column group named 'Foo'
(no recognized process keyword). -/
def exT1 : Table :=
  { groups := [("Experiment Info",
      ["Nomad ID", "Sample dimension", "Sample area [cm^2]", "Substrate material",
       "Substrate conductive layer"]), ("Foo", ["Material name"])]
    rows := [[[Cell.str "b_1", Cell.str "1x1", Cell.num 1, Cell.str "glass", Cell.str "ITO"],
              [Cell.str "PbI2"]]] }

/-- A sheet whose only sample row has a 'Nomad ID' but all four
substrate-identifying cells missing. -/
def exT2 : Table :=
  { groups := [("Experiment Info",
      ["Nomad ID", "Sample dimension", "Sample area [cm^2]", "Substrate material",
       "Substrate conductive layer"])]
    rows := [[[Cell.str "b_1", Cell.na, Cell.na, Cell.na, Cell.na]]] }

/-- A well-formed one-row sheet. -/
def exT3 : Table :=
  { groups := [("Experiment Info",
      ["Nomad ID", "Sample dimension", "Sample area [cm^2]", "Substrate material",
       "Substrate conductive layer"])]
    rows := [[[Cell.str "a_0", Cell.str "d", Cell.num 1, Cell.str "m", Cell.str "c"]]] }

/-- A sheet without an 'Experiment Info' column group. -/
def exT7 : Table :=
  { groups := [("Other", ["X"])], rows := [] }

/-- A sheet with the 'Experiment Info'/'Nomad ID' column but no rows
(no non-missing 'Nomad ID' value). -/
def exT9 : Table :=
  { groups := [("Experiment Info", ["Nomad ID"])], rows := [] }

/-- A row whose 'Annealing time [min]' cell holds a non-numeric string. -/
def exRow4 : SubRow := [("Annealing time [min]", Cell.str "abc")]

/-- A row whose 'Annealing time [min]' cell holds the number 5. -/
def exRowC4 : SubRow := [("Annealing time [min]", Cell.num 5)]

/-- A row whose only cell is a 'Rotation time [s]' equal to 0. -/
def exRow5 : SubRow := [("Rotation time [s]", Cell.num 0)]

/-- A row without an 'Organic' cell. -/
def exRow8 : SubRow := [("Material name", Cell.str "Au")]

/-- A row with both an anti-solvent name and a gas. -/
def exRow10 : SubRow := [("Anti solvent name", Cell.str "tol"), ("Gas", Cell.str "N2")]

/-- A row for a 'Generic Process' column group. -/
def exRowG : SubRow := [("Name", Cell.str "x")]

/-- The spin-coating archive produced from `exRowC4`. -/
def exRecC4 : Cell × SpinCoatingRec :=
  (Cell.str "1_0_spin_coating_",
    { name := "spin coating "
      location := PyVal.str ""
      positon_in_experimental_plan := 1
      description := PyVal.str ""
      samples := []
      layer := [{ layer_type := PyVal.none, layer_material_name := PyVal.none }]
      solution := [{ solution_details := { solvent := [], solute := [] }
                     solution_volume := Option.none }]
      annealing := { temperature := PyVal.none, time := some (5 * 60), atmosphere := PyVal.none }
      recipe_steps := []
      quenching := Option.none })

/-- The spin-coating archive produced from `exRow5`. -/
def exRecC5 : Cell × SpinCoatingRec :=
  (Cell.str "1_0_spin_coating_",
    { name := "spin coating "
      location := PyVal.str ""
      positon_in_experimental_plan := 1
      description := PyVal.str ""
      samples := []
      layer := [{ layer_type := PyVal.none, layer_material_name := PyVal.none }]
      solution := [{ solution_details := { solvent := [], solute := [] }
                     solution_volume := Option.none }]
      annealing := { temperature := PyVal.none, time := Option.none, atmosphere := PyVal.none }
      recipe_steps := []
      quenching := Option.none })

/-- The gas-quenching section produced from `exRow10`. -/
def exGas10 : Quenching :=
  Quenching.gasNozzle PyVal.none PyVal.none PyVal.none PyVal.none PyVal.none PyVal.none
    PyVal.none PyVal.none (PyVal.str "N2")

/-- The generic-process record produced from `exRowG`. -/
def exGenRec : Record :=
  Record.generic
    { name := PyVal.str "x"
      positon_in_experimental_plan := 1
      description := PyVal.str ""
      samples := mkRefs "u" [Cell.str "a_0"] }

/-- The record list produced by `rowRecords` on `exRowG`. -/
def exRecsG : List (Cell × Record) :=
  [(Cell.str "1_0_generic_process", exGenRec)]

/-- The substrate record of `exT3`. -/
def exSubRec3 : SubstrateRec :=
  { name := "Substrate d m c"
    solar_cell_area := PyVal.num 1
    substrate := PyVal.str "m"
    conducting_material := [PyVal.str "c"] }

/-- The substrate list of `exT3`. -/
def exSubs3 : List (String × List Cell × SubstrateRec) :=
  [("0_substrate", [Cell.str "d", Cell.num 1, Cell.str "m", Cell.str "c"], exSubRec3)]

/-- The sample record of `exT3`. -/
def exSample3 : SampleRec :=
  { name := Cell.str "a_0"
    lab_id := Cell.str "a_0"
    substrate := get_reference "u" "0_substrate.archive.json"
    description := PyVal.none }

/-- The batch record of `exT3`. -/
def exBatch3 : BatchRec :=
  { name := "a"
    lab_id := "a"
    entities := [{ reference := get_reference "u" "a_0.archive.json"
                   lab_id := Cell.str "a_0" }] }

/-- The full output of `parse` on `exT3`. -/
def exOut3 : List (Cell × Record) :=
  [(Cell.str "0_substrate", Record.substrate exSubRec3),
   (Cell.str "a", Record.batch exBatch3),
   (Cell.str "a_0", Record.sample exSample3)]

/-! ## Helper lemmas -/

theorem ebind_ok {α β : Type} {x : Except Unit α} {f : α → Except Unit β} {b : β} :
    ebind x f = Except.ok b ↔ ∃ a, x = Except.ok a ∧ f a = Except.ok b := by
  cases x with
  | error e => simp [ebind]
  | ok a => simp [ebind]

theorem get_value_num_found_num {data : SubRow} {key : String} {q : ℚ} (d : PyVal)
    (h : (data.find? (fun p => p.1 == key)).map Prod.snd = some (Cell.num q)) :
    get_value_num data key d = Except.ok (PyVal.num q) := by
  unfold get_value_num
  cases hf : data.find? (fun p => p.1 == key) with
  | none => rw [hf] at h; exact Option.noConfusion h
  | some p =>
    rw [hf] at h
    simp only [Option.map_some'] at h
    obtain ⟨a, c⟩ := p
    simp only at h
    obtain rfl := Option.some.inj h
    rfl

theorem get_value_num_absent {data : SubRow} {key : String} (d : PyVal)
    (h : data.find? (fun p => p.1 == key) = Option.none ∨
      (data.find? (fun p => p.1 == key)).map Prod.snd = some Cell.na) :
    get_value_num data key d = Except.ok d := by
  unfold get_value_num
  cases hf : data.find? (fun p => p.1 == key) with
  | none => rfl
  | some p =>
    rw [hf] at h
    rcases h with h | h
    · exact Option.noConfusion h
    · simp only [Option.map_some'] at h
      obtain ⟨a, c⟩ := p
      simp only at h
      obtain rfl := Option.some.inj h
      rfl

theorem map_spin_coating_ok {i j : ℕ} {labs : List Cell} {data : SubRow} {u : String}
    {k : Cell} {rec : SpinCoatingRec}
    (h : map_spin_coating i j labs data u = Except.ok (k, rec)) :
    ∃ soldet solvol annT annTm steps q,
      map_solutions data = Except.ok soldet ∧
      get_value_num data "Solution volume [um]" PyVal.none = Except.ok solvol ∧
      get_value_num data "Annealing temperature [°C]" PyVal.none = Except.ok annT ∧
      get_value_num data "Annealing time [min]" PyVal.none = Except.ok annTm ∧
      recipeSteps data = Except.ok steps ∧
      quenchingOf data = Except.ok q ∧
      rec.annealing.time = convert_quantity annTm 60 ∧
      rec.annealing.temperature = annT ∧
      rec.recipe_steps = steps ∧
      rec.quenching = q ∧
      rec.samples = mkRefs u labs ∧
      rec.solution = [{ solution_details := soldet
                        solution_volume := convert_quantity solvol (1 / 1000) }] := by
  unfold map_spin_coating at h
  obtain ⟨soldet, h1, h⟩ := ebind_ok.mp h
  obtain ⟨solvol, h2, h⟩ := ebind_ok.mp h
  obtain ⟨annT, h3, h⟩ := ebind_ok.mp h
  obtain ⟨annTm, h4, h⟩ := ebind_ok.mp h
  obtain ⟨steps, h5, h⟩ := ebind_ok.mp h
  obtain ⟨q, h6, h⟩ := ebind_ok.mp h
  obtain ⟨-, hrec⟩ := Prod.mk.injEq .. ▸ (Except.ok.inj h)
  refine ⟨soldet, solvol, annT, annTm, steps, q, h1, h2, h3, h4, h5, h6, ?_, ?_, ?_, ?_, ?_, ?_⟩ <;>
    rw [← hrec]

theorem quenchingOf_gas {d : SubRow} {q : Option Quenching}
    (h : quenchingOf d = Except.ok q) (hg : gasCond d = true) :
    ∃ g, gasQuench d = Except.ok g ∧ q = some g := by
  unfold quenchingOf at h
  obtain ⟨q0, h0, h⟩ := ebind_ok.mp h
  obtain ⟨q1, h1, h⟩ := ebind_ok.mp h
  rw [hg] at h
  simp only [if_true] at h
  obtain ⟨g, hgq, h⟩ := ebind_ok.mp h
  exact ⟨g, hgq, (Except.ok.inj h).symm⟩

theorem quenchingOf_vac {d : SubRow} {q : Option Quenching}
    (h : quenchingOf d = Except.ok q) (hg : gasCond d = false) (hv : vacCond d = true) :
    ∃ v, vacQuench d = Except.ok v ∧ q = some v := by
  unfold quenchingOf at h
  obtain ⟨q0, h0, h⟩ := ebind_ok.mp h
  obtain ⟨q1, h1, h⟩ := ebind_ok.mp h
  rw [hg] at h
  simp only [Bool.false_eq_true, if_false] at h
  obtain rfl := Except.ok.inj h
  rw [hv] at h1
  simp only [if_true] at h1
  obtain ⟨v, hvq, h1⟩ := ebind_ok.mp h1
  exact ⟨v, hvq, (Except.ok.inj h1).symm⟩

theorem quenchingOf_anti {d : SubRow} {q : Option Quenching}
    (h : quenchingOf d = Except.ok q) (hg : gasCond d = false) (hv : vacCond d = false)
    (ha : antiCond d = true) :
    ∃ a, antiQuench d = Except.ok a ∧ q = some a := by
  unfold quenchingOf at h
  obtain ⟨q0, h0, h⟩ := ebind_ok.mp h
  obtain ⟨q1, h1, h⟩ := ebind_ok.mp h
  rw [hg] at h
  simp only [Bool.false_eq_true, if_false] at h
  obtain rfl := Except.ok.inj h
  rw [hv] at h1
  simp only [Bool.false_eq_true, if_false] at h1
  obtain rfl := Except.ok.inj h1
  rw [ha] at h0
  simp only [if_true] at h0
  obtain ⟨a, haq, h0⟩ := ebind_ok.mp h0
  exact ⟨a, haq, (Except.ok.inj h0).symm⟩

theorem quenchingOf_none {d : SubRow} {q : Option Quenching}
    (h : quenchingOf d = Except.ok q) (hg : gasCond d = false) (hv : vacCond d = false)
    (ha : antiCond d = false) : q = Option.none := by
  unfold quenchingOf at h
  obtain ⟨q0, h0, h⟩ := ebind_ok.mp h
  obtain ⟨q1, h1, h⟩ := ebind_ok.mp h
  rw [hg] at h
  simp only [Bool.false_eq_true, if_false] at h
  obtain rfl := Except.ok.inj h
  rw [hv] at h1
  simp only [Bool.false_eq_true, if_false] at h1
  obtain rfl := Except.ok.inj h1
  rw [ha] at h0
  simp only [Bool.false_eq_true, if_false] at h0
  exact (Except.ok.inj h0).symm

theorem gasQuench_kind {d : SubRow} {g : Quenching} (h : gasQuench d = Except.ok g) :
    quenchKind (some g) = 3 := by
  unfold gasQuench at h
  obtain ⟨_, _, h⟩ := ebind_ok.mp h
  obtain ⟨_, _, h⟩ := ebind_ok.mp h
  obtain ⟨_, _, h⟩ := ebind_ok.mp h
  obtain ⟨_, _, h⟩ := ebind_ok.mp h
  obtain ⟨_, _, h⟩ := ebind_ok.mp h
  obtain ⟨_, _, h⟩ := ebind_ok.mp h
  obtain rfl := Except.ok.inj h
  rfl

theorem vacQuench_kind {d : SubRow} {g : Quenching} (h : vacQuench d = Except.ok g) :
    quenchKind (some g) = 2 := by
  unfold vacQuench at h
  obtain ⟨_, _, h⟩ := ebind_ok.mp h
  obtain ⟨_, _, h⟩ := ebind_ok.mp h
  obtain ⟨_, _, h⟩ := ebind_ok.mp h
  obtain rfl := Except.ok.inj h
  rfl

theorem antiQuench_kind {d : SubRow} {g : Quenching} (h : antiQuench d = Except.ok g) :
    quenchKind (some g) = 1 := by
  unfold antiQuench at h
  obtain ⟨_, _, h⟩ := ebind_ok.mp h
  obtain ⟨_, _, h⟩ := ebind_ok.mp h
  obtain ⟨_, _, h⟩ := ebind_ok.mp h
  obtain ⟨_, _, h⟩ := ebind_ok.mp h
  obtain rfl := Except.ok.inj h
  rfl

theorem recipeStepOne_spec {data : SubRow} {st : String} {l : List SpinCoatingRecipeSteps}
    (h : recipeStepOne data st = Except.ok l) :
    l ≠ [] ↔ ∃ v, get_value_num data ("Rotation time " ++ st ++ "[s]") PyVal.none =
      Except.ok v ∧ pytruthy v = true := by
  unfold recipeStepOne at h
  obtain ⟨tcond, ht, h⟩ := ebind_ok.mp h
  by_cases htr : pytruthy tcond = true
  · rw [htr] at h
    simp only [if_true] at h
    obtain ⟨_, _, h⟩ := ebind_ok.mp h
    obtain ⟨_, _, h⟩ := ebind_ok.mp h
    obtain ⟨_, _, h⟩ := ebind_ok.mp h
    obtain rfl := Except.ok.inj h
    simp only [ne_eq, List.cons_ne_self, not_false_eq_true, true_iff]
    exact ⟨tcond, ht, htr⟩
  · rw [Bool.not_eq_true] at htr
    rw [htr] at h
    simp only [Bool.false_eq_true, if_false] at h
    obtain rfl := Except.ok.inj h
    simp only [ne_eq, not_true_eq_false, false_iff, not_exists, not_and]
    intro v hv
    rw [ht] at hv
    obtain rfl := Except.ok.inj hv
    rw [htr]
    simp

theorem ebind_error_unit {α β : Type} (x : Except Unit α) (f : α → Except Unit β)
    (hf : ∀ a, f a = Except.error ()) : ebind x f = Except.error () := by
  cases x with
  | error e => rfl
  | ok a => exact hf a

theorem mapMFlat_forall {α β : Type} {f : α → Except Unit (List β)} {l : List α}
    {out : List β} (h : mapMFlat f l = Except.ok out) {a : α} (ha : a ∈ l) :
    ∃ ys, f a = Except.ok ys ∧ ∀ b ∈ ys, b ∈ out := by
  induction l generalizing out with
  | nil => cases ha
  | cons x xs ih =>
    unfold mapMFlat at h
    obtain ⟨ys, hys, h⟩ := ebind_ok.mp h
    obtain ⟨rest, hrest, h⟩ := ebind_ok.mp h
    obtain rfl := (Except.ok.inj h).symm
    rcases List.mem_cons.mp ha with rfl | hmem
    · exact ⟨ys, hys, fun b hb => List.mem_append_left _ hb⟩
    · obtain ⟨ys', h', hsub⟩ := ih hrest hmem
      exact ⟨ys', h', fun b hb => List.mem_append_right _ (hsub b hb)⟩

theorem mapMFlat_mem {α β : Type} {f : α → Except Unit (List β)} {l : List α}
    {out : List β} (h : mapMFlat f l = Except.ok out) {b : β} (hb : b ∈ out) :
    ∃ a, a ∈ l ∧ ∃ ys, f a = Except.ok ys ∧ b ∈ ys := by
  induction l generalizing out with
  | nil =>
    unfold mapMFlat at h
    obtain rfl := (Except.ok.inj h).symm
    cases hb
  | cons x xs ih =>
    unfold mapMFlat at h
    obtain ⟨ys, hys, h⟩ := ebind_ok.mp h
    obtain ⟨rest, hrest, h⟩ := ebind_ok.mp h
    obtain rfl := (Except.ok.inj h).symm
    rcases List.mem_append.mp hb with hmem | hmem
    · exact ⟨x, List.mem_cons_self x xs, ys, hys, hmem⟩
    · obtain ⟨a, ha, ys', h', hmem'⟩ := ih hrest hmem
      exact ⟨a, List.mem_cons_of_mem x ha, ys', h', hmem'⟩

theorem mapME_forall2 {α β : Type} {f : α → Except Unit β} {l : List α} {out : List β}
    (h : mapME f l = Except.ok out) :
    List.Forall₂ (fun a b => f a = Except.ok b) l out := by
  induction l generalizing out with
  | nil =>
    unfold mapME at h
    obtain rfl := (Except.ok.inj h).symm
    exact List.Forall₂.nil
  | cons x xs ih =>
    unfold mapME at h
    obtain ⟨y, hy, h⟩ := ebind_ok.mp h
    obtain ⟨rest, hrest, h⟩ := ebind_ok.mp h
    obtain rfl := (Except.ok.inj h).symm
    exact List.Forall₂.cons hy (ih hrest)

theorem parse_ok_elim {t : Table} {u : String} {out : List (Cell × Record)}
    (h : parse t u = Except.ok out) :
    ∃ first rest bid subs samps procs,
      sampleIdCells t = Except.ok (first :: rest) ∧
      batchIdOf first = Except.ok bid ∧
      substratesOf t = Except.ok subs ∧
      sampleArchives t u subs = Except.ok samps ∧
      processEntriesOf t u = Except.ok procs ∧
      out = subs.map (fun s => (Cell.str s.1, Record.substrate s.2.2)) ++
        [(Cell.str bid, Record.batch (map_batch (first :: rest) bid u))] ++ samps ++ procs := by
  unfold parse at h
  obtain ⟨ids, hids, h⟩ := ebind_ok.mp h
  cases ids with
  | nil => exact absurd h (by simp)
  | cons first rest =>
    obtain ⟨bid, hbid, h⟩ := ebind_ok.mp h
    obtain ⟨subs, hsubs, h⟩ := ebind_ok.mp h
    obtain ⟨samps, hsamps, h⟩ := ebind_ok.mp h
    obtain ⟨procs, hprocs, h⟩ := ebind_ok.mp h
    exact ⟨first, rest, bid, subs, samps, procs, hids, hbid, hsubs, hsamps, hprocs,
      (Except.ok.inj h).symm⟩

/-! ## Claim theorems -/

/-- C6: the reference string for an archived record is stable: `get_reference`
is a pure function (two calls with equal arguments are the same term, hence
equal), and it returns `'../uploads/<upload_id>/archive/<entry_id>#data'`
where the entry id is the hash of `(upload_id, file_name)` (note the argument
swap inside `get_entry_id_from_file_name`). -/
theorem c6_reference_format : ∀ upload_id file_name : String,
    get_reference upload_id file_name =
      "../uploads/" ++ upload_id ++ "/archive/" ++
        get_entry_id_from_file_name file_name upload_id ++ "#data" ∧
    get_entry_id_from_file_name file_name upload_id = nomadHash upload_id file_name ∧
    get_reference upload_id file_name = get_reference upload_id file_name :=
  fun _ _ => ⟨rfl, rfl, rfl⟩

/-- C7: `is_mainfile` accepts a file only when it can be read as a
two-level-header spreadsheet with an 'Experiment Info'/'Nomad ID' column;
when the read or the column access fails it returns `False` (the embedding is
a total function, so it cannot raise). -/
theorem c7_is_mainfile_safe : ∀ (superOk : Bool) (file : Option Table),
    ((file = Option.none ∨ ∃ t, file = some t ∧ sampleIdCells t = Except.error ()) →
      is_mainfile superOk file = false) ∧
    (is_mainfile superOk file = true →
      superOk = true ∧ ∃ t ids, file = some t ∧ sampleIdCells t = Except.ok ids) := by
  intro superOk file
  constructor
  · rintro (rfl | ⟨t, rfl, ht⟩)
    · cases superOk <;> rfl
    · cases superOk
      · rfl
      · simp [is_mainfile, ht]
  · intro h
    cases superOk
    · exact absurd h (by simp [is_mainfile])
    · cases file with
      | none => exact absurd h (by simp [is_mainfile])
      | some t =>
        refine ⟨rfl, t, ?_⟩
        cases hs : sampleIdCells t with
        | error e => simp [is_mainfile, hs] at h
        | ok ids => exact ⟨ids, rfl, rfl⟩

/-- Witness for C7: a sheet with no 'Experiment Info' group is rejected even
when the inherited file-name match succeeds. -/
theorem c7_is_mainfile_safe_witness : is_mainfile true (some exT7) = false :=
  (c7_is_mainfile_safe true (some exT7)).1 (Or.inr ⟨exT7, rfl, rfl⟩)

/-- C8: `map_evaporation` succeeds only when the lower-cased 'Organic' string
starts with 'y', 'n', '0' or '1'; otherwise (in particular when the cell is
missing, so the string is the default `''`) the `evaporation` local stays
`None` and the subsequent attribute assignment raises. -/
theorem c8_evaporation_organic : ∀ (i j : ℕ) (labs : List Cell) (data : SubRow) (u : String),
    pyStartsWith (organicStr data) "y" = false →
    pyStartsWith (organicStr data) "n" = false →
    pyStartsWith (organicStr data) "0" = false →
    pyStartsWith (organicStr data) "1" = false →
    map_evaporation i j labs data u = Except.error () := by
  intro i j labs data u hy hn h0 h1
  unfold map_evaporation
  simp only [hy, hn, h0, h1, Bool.or_self, Bool.false_eq_true, if_false]
  exact ebind_error_unit _ _ (fun th => ebind_error_unit _ _ (fun ra => rfl))

/-- Witness for C8: a row without an 'Organic' cell makes `map_evaporation`
raise. -/
theorem c8_evaporation_organic_witness :
    map_evaporation 1 0 [] exRow8 "u" = Except.error () :=
  c8_evaporation_organic 1 0 [] exRow8 "u" rfl rfl rfl rfl

/-- C9: `parse` derives the batch lab id from the first non-missing
'Nomad ID' by dropping the last underscore-separated segment, and raises when
the sheet has no non-missing 'Nomad ID' (the `sample_ids[0]` IndexError). -/
theorem c9_batch_id :
    (∀ (t : Table) (u : String), sampleIdCells t = Except.ok [] →
      parse t u = Except.error ()) ∧
    (∀ (t : Table) (u : String) (s : String) (rest : List Cell)
        (out : List (Cell × Record)),
      sampleIdCells t = Except.ok (Cell.str s :: rest) → parse t u = Except.ok out →
      ∃ b, (Cell.str (pyJoin '_' ((pySplit s '_').dropLast)), Record.batch b) ∈ out ∧
        b.lab_id = pyJoin '_' ((pySplit s '_').dropLast) ∧
        b.name = pyJoin '_' ((pySplit s '_').dropLast) ∧
        b.entities = mkRefs u (Cell.str s :: rest)) := by
  constructor
  · intro t u h
    unfold parse
    rw [h]
    rfl
  · intro t u s rest out hid hp
    obtain ⟨first, rest', bid, subs, samps, procs, hids, hbid, -, -, -, hout⟩ := parse_ok_elim hp
    rw [hid] at hids
    obtain hfr := Except.ok.inj hids
    obtain ⟨rfl, rfl⟩ := List.cons.injEq .. ▸ hfr
    unfold batchIdOf at hbid
    obtain rfl := Except.ok.inj hbid
    subst hout
    refine ⟨map_batch (Cell.str s :: rest) (pyJoin '_' ((pySplit s '_').dropLast)) u,
      ?_, rfl, rfl, rfl⟩
    simp [List.mem_append]

/-- Witness for C9: a sheet whose 'Nomad ID' column has no non-missing value
makes `parse` raise. -/
theorem c9_batch_id_witness : parse exT9 "u" = Except.error () :=
  c9_batch_id.1 exT9 "u" rfl

/-- C10: at most one quenching sub-record is stored by `map_spin_coating` and
the override order is fixed: the stored value is the gas section when the gas
branch fires, else the vacuum section when that branch fires, else the
anti-solvent section, else nothing — i.e. the last applicable branch in the
order anti-solvent, vacuum, gas. -/
theorem c10_quenching_override :
    (∀ (d : SubRow) (q : Option Quenching), quenchingOf d = Except.ok q →
      (gasCond d = true → ∃ g, gasQuench d = Except.ok g ∧ q = some g) ∧
      (gasCond d = false → vacCond d = true →
        ∃ v, vacQuench d = Except.ok v ∧ q = some v) ∧
      (gasCond d = false → vacCond d = false → antiCond d = true →
        ∃ a, antiQuench d = Except.ok a ∧ q = some a) ∧
      (gasCond d = false → vacCond d = false → antiCond d = false → q = Option.none)) ∧
    (∀ (i j : ℕ) (labs : List Cell) (data : SubRow) (u : String) (k : Cell)
        (rec : SpinCoatingRec), map_spin_coating i j labs data u = Except.ok (k, rec) →
      ∃ q, quenchingOf data = Except.ok q ∧ rec.quenching = q) := by
  constructor
  · intro d q h
    exact ⟨fun hg => quenchingOf_gas h hg,
      fun hg hv => quenchingOf_vac h hg hv,
      fun hg hv ha => quenchingOf_anti h hg hv ha,
      fun hg hv ha => quenchingOf_none h hg hv ha⟩
  · intro i j labs data u k rec h
    obtain ⟨_, _, _, _, _, q, -, -, -, -, -, hq, -, -, -, hqof, -, -⟩ := map_spin_coating_ok h
    exact ⟨q, hq, hqof⟩

/-- Witness for C10: with both an anti-solvent name and a gas present, the
stored quenching is the gas section. -/
theorem c10_quenching_override_witness :
    gasQuench exRow10 = Except.ok exGas10 ∧
    quenchingOf exRow10 = Except.ok (some exGas10) := by
  obtain ⟨g, hg, hq⟩ := ((c10_quenching_override.1 exRow10 (some exGas10) rfl).1) rfl
  obtain rfl := Option.some.inj hq
  exact ⟨hg, rfl⟩

/-- C4 (amended): when the 'Annealing time [min]' cell holds a number `q` the
stored annealing time is `q * 60` (minutes to seconds), and when the cell is
absent or `NaN` it is `None`; likewise a numeric solvent volume '[uL]' or
solute concentration '[mM]' cell is stored multiplied by `1/1000`.  (A
present non-numeric string makes the mapper raise instead of storing `None` —
see the counterexample.) -/
theorem c4_unit_conversion :
    (∀ (i j : ℕ) (labs : List Cell) (data : SubRow) (u : String) (k : Cell)
        (rec : SpinCoatingRec), map_spin_coating i j labs data u = Except.ok (k, rec) →
      (∀ q : ℚ, (data.find? (fun p => p.1 == "Annealing time [min]")).map Prod.snd =
          some (Cell.num q) → rec.annealing.time = some (q * 60)) ∧
      ((data.find? (fun p => p.1 == "Annealing time [min]") = Option.none ∨
        (data.find? (fun p => p.1 == "Annealing time [min]")).map Prod.snd =
          some Cell.na) → rec.annealing.time = Option.none)) ∧
    (∀ (data : SubRow) (p : String) (l : List SolutionChemical) (c : SolutionChemical)
        (q : ℚ), solventEntry data p = Except.ok l → c ∈ l →
      (data.find? (fun x => x.1 == (p ++ " volume [uL]"))).map Prod.snd =
        some (Cell.num q) → c.chemical_volume = some (q * (1 / 1000))) ∧
    (∀ (data : SubRow) (p : String) (l : List SolutionChemical) (c : SolutionChemical)
        (q : ℚ), soluteEntry data p = Except.ok l → c ∈ l →
      (data.find? (fun x => x.1 == (p ++ " Concentration [mM]"))).map Prod.snd =
        some (Cell.num q) → c.concentration_mol = some (q * (1 / 1000))) := by
  refine ⟨?_, ?_, ?_⟩
  · intro i j labs data u k rec h
    obtain ⟨_, _, _, annTm, _, _, _, _, _, h4, _, _, htime, _, _, _, _, _⟩ :=
      map_spin_coating_ok h
    constructor
    · intro qv hfind
      have hv := get_value_num_found_num PyVal.none hfind
      rw [h4] at hv
      obtain rfl := Except.ok.inj hv
      rw [htime]
      rfl
    · intro hfind
      have hv := get_value_num_absent PyVal.none hfind
      rw [h4] at hv
      obtain rfl := Except.ok.inj hv
      rw [htime]
      rfl
  · intro data p l c q hse hmem hfind
    unfold solventEntry at hse
    obtain ⟨volV, hvol, hse⟩ := ebind_ok.mp hse
    have hv := get_value_num_found_num PyVal.none hfind
    rw [hvol] at hv
    obtain rfl := Except.ok.inj hv
    by_cases hcond :
        (!(pytruthy (get_value_str data (p ++ " name") PyVal.none)) &&
          !(pytruthy (PyVal.num q))) = true
    · rw [hcond] at hse
      simp only [if_true] at hse
      obtain rfl := (Except.ok.inj hse).symm
      cases hmem
    · rw [Bool.not_eq_true] at hcond
      rw [hcond] at hse
      simp only [Bool.false_eq_true, if_false] at hse
      obtain rfl := (Except.ok.inj hse).symm
      obtain rfl := List.mem_singleton.mp hmem
      rfl
  · intro data p l c q hse hmem hfind
    unfold soluteEntry at hse
    obtain ⟨conV, hcon, hse⟩ := ebind_ok.mp hse
    have hv := get_value_num_found_num PyVal.none hfind
    rw [hcon] at hv
    obtain rfl := Except.ok.inj hv
    by_cases hcond :
        (!(pytruthy (get_value_str data (p ++ " type") PyVal.none)) &&
          !(pytruthy (PyVal.num q))) = true
    · rw [hcond] at hse
      simp only [if_true] at hse
      obtain rfl := (Except.ok.inj hse).symm
      cases hmem
    · rw [Bool.not_eq_true] at hcond
      rw [hcond] at hse
      simp only [Bool.false_eq_true, if_false] at hse
      obtain rfl := (Except.ok.inj hse).symm
      obtain rfl := List.mem_singleton.mp hmem
      rfl

/-- C4 counterexample: a present non-numeric 'Annealing time [min]' cell
("abc") makes `map_spin_coating` raise (`float('abc')` in `get_value`
re-raises), so no record with a `None` time is produced as the claim
states. -/
theorem c4_unit_conversion_counterexample :
    map_spin_coating 1 0 [] exRow4 "u" = Except.error () ∧
    exRow4.find? (fun p => p.1 == "Annealing time [min]") =
      some ("Annealing time [min]", Cell.str "abc") ∧
    parseFloat? "abc" = Option.none :=
  ⟨rfl, rfl, rfl⟩

/-- Witness for C4: an 'Annealing time [min]' cell holding 5 is stored as
`5 * 60` seconds. -/
theorem c4_unit_conversion_witness :
    map_spin_coating 1 0 [] exRowC4 "u" = Except.ok exRecC4 ∧
    exRecC4.2.annealing.time = some (5 * 60) :=
  ⟨rfl, (c4_unit_conversion.1 1 0 [] exRowC4 "u" exRecC4.1 exRecC4.2 rfl).1 5 rfl⟩

/-- C5 (amended): on a successful `map_spin_coating`, the stored quenching is
the gas section iff the 'Gas' branch condition (truthiness of the stripped
string, not mere non-missingness) holds; the vacuum section iff its condition
holds and the gas one does not; the anti-solvent section iff its condition
holds and neither later branch fires; and a spin recipe step is included for
a step suffix iff its 'Rotation time {step}[s]' value is truthy — i.e. parses
to a NONZERO number (a present 0 yields no step, see the counterexample). -/
theorem c5_optional_sections :
    ∀ (i j : ℕ) (labs : List Cell) (data : SubRow) (u : String) (k : Cell)
      (rec : SpinCoatingRec), map_spin_coating i j labs data u = Except.ok (k, rec) →
    (quenchKind rec.quenching = 3 ↔ gasCond data = true) ∧
    (quenchKind rec.quenching = 2 ↔ (vacCond data = true ∧ gasCond data = false)) ∧
    (quenchKind rec.quenching = 1 ↔
      (antiCond data = true ∧ vacCond data = false ∧ gasCond data = false)) ∧
    (∃ steps, recipeSteps data = Except.ok steps ∧ rec.recipe_steps = steps ∧
      ∀ st ∈ (["", "1 ", "2 ", "3 ", "4 "] : List String),
        ∃ l, recipeStepOne data st = Except.ok l ∧ (∀ e ∈ l, e ∈ steps) ∧
          (l ≠ [] ↔ ∃ v, get_value_num data ("Rotation time " ++ st ++ "[s]")
            PyVal.none = Except.ok v ∧ pytruthy v = true)) := by
  intro i j labs data u k rec h
  obtain ⟨_, _, _, _, steps, q, _, _, _, _, h5, h6, _, _, hsteps, hqrec, _, _⟩ :=
    map_spin_coating_ok h
  have hkind : quenchKind q =
      (if gasCond data then 3 else if vacCond data then 2 else
        if antiCond data then 1 else 0) := by
    rcases hg : gasCond data
    · rcases hv : vacCond data
      · rcases ha : antiCond data
        · rw [quenchingOf_none h6 hg hv ha]
          rfl
        · obtain ⟨a, haq, rfl⟩ := quenchingOf_anti h6 hg hv ha
          rw [antiQuench_kind haq]
          simp
      · obtain ⟨v, hvq, rfl⟩ := quenchingOf_vac h6 hg hv
        rw [vacQuench_kind hvq]
        simp
    · obtain ⟨g, hgq, rfl⟩ := quenchingOf_gas h6 hg
      rw [gasQuench_kind hgq]
      simp
  have h5' := h5
  unfold recipeSteps at h5'
  refine ⟨?_, ?_, ?_, steps, h5, hsteps, ?_⟩
  · rw [hqrec, hkind]
    rcases gasCond data <;> rcases vacCond data <;> rcases antiCond data <;> simp
  · rw [hqrec, hkind]
    rcases gasCond data <;> rcases vacCond data <;> rcases antiCond data <;> simp
  · rw [hqrec, hkind]
    rcases gasCond data <;> rcases vacCond data <;> rcases antiCond data <;> simp
  · intro st hst
    obtain ⟨l, hl, hsub⟩ := mapMFlat_forall h5' hst
    exact ⟨l, hl, hsub, recipeStepOne_spec hl⟩

/-- C5 counterexample: the 'Rotation time [s]' cell holds the number 0, yet
no recipe step is included (the claim asserts a step whenever the cell holds
a number). -/
theorem c5_optional_sections_counterexample :
    Except.map (fun kr : Cell × SpinCoatingRec => kr.2.recipe_steps)
      (map_spin_coating 1 0 [] exRow5 "u") = Except.ok [] ∧
    exRow5.find? (fun p => p.1 == "Rotation time [s]") =
      some ("Rotation time [s]", Cell.num 0) :=
  ⟨rfl, rfl⟩

/-- Witness for C5: on `exRow5` the mapper succeeds and no quenching is a gas
section iff the 'Gas' condition holds (here: neither). -/
theorem c5_optional_sections_witness :
    map_spin_coating 1 0 [] exRow5 "u" = Except.ok exRecC5 ∧
    (quenchKind exRecC5.2.quenching = 3 ↔ gasCond exRow5 = true) :=
  ⟨rfl, (c5_optional_sections 1 0 [] exRow5 "u" exRecC5.1 exRecC5.2 rfl).1⟩

/-! ## Per-mapper `samples` lemmas -/

theorem map_cleaning_samples {i j : ℕ} {labs : List Cell} {data : SubRow} {u : String}
    {kr : Cell × CleaningRec} (h : map_cleaning i j labs data u = Except.ok kr) :
    kr.2.samples = mkRefs u labs := by
  unfold map_cleaning at h
  obtain ⟨_, _, h⟩ := ebind_ok.mp h
  obtain ⟨_, _, h⟩ := ebind_ok.mp h
  obtain ⟨_, _, h⟩ := ebind_ok.mp h
  obtain ⟨_, _, h⟩ := ebind_ok.mp h
  obtain rfl := (Except.ok.inj h).symm
  rfl

theorem map_evaporation_samples {i j : ℕ} {labs : List Cell} {data : SubRow} {u : String}
    {kr : Cell × EvaporationRec} (h : map_evaporation i j labs data u = Except.ok kr) :
    kr.2.samples = mkRefs u labs := by
  unfold map_evaporation at h
  obtain ⟨_, _, h⟩ := ebind_ok.mp h
  obtain ⟨_, _, h⟩ := ebind_ok.mp h
  split at h
  · obtain ⟨_, _, h⟩ := ebind_ok.mp h
    obtain rfl := (Except.ok.inj h).symm
    rfl
  · split at h
    · obtain rfl := (Except.ok.inj h).symm
      rfl
    · exact absurd h (by simp)

theorem map_spin_coating_samples {i j : ℕ} {labs : List Cell} {data : SubRow} {u : String}
    {kr : Cell × SpinCoatingRec} (h : map_spin_coating i j labs data u = Except.ok kr) :
    kr.2.samples = mkRefs u labs := by
  have h' : map_spin_coating i j labs data u = Except.ok (kr.1, kr.2) := by rw [← h]
  obtain ⟨_, _, _, _, _, _, _, _, _, _, _, _, _, _, _, _, hs, _⟩ := map_spin_coating_ok h'
  exact hs

theorem map_inkjet_samples {i j : ℕ} {labs : List Cell} {data : SubRow} {u : String}
    {kr : Cell × InkjetRec} (h : map_inkjet_printing i j labs data u = Except.ok kr) :
    kr.2.samples = mkRefs u labs := by
  unfold map_inkjet_printing at h
  obtain ⟨_, _, h⟩ := ebind_ok.mp h
  obtain ⟨_, _, h⟩ := ebind_ok.mp h
  obtain ⟨_, _, h⟩ := ebind_ok.mp h
  obtain ⟨_, _, h⟩ := ebind_ok.mp h
  obtain ⟨_, _, h⟩ := ebind_ok.mp h
  obtain ⟨_, _, h⟩ := ebind_ok.mp h
  obtain ⟨_, _, h⟩ := ebind_ok.mp h
  obtain ⟨_, _, h⟩ := ebind_ok.mp h
  obtain ⟨_, _, h⟩ := ebind_ok.mp h
  obtain ⟨_, _, h⟩ := ebind_ok.mp h
  obtain ⟨_, _, h⟩ := ebind_ok.mp h
  obtain ⟨_, _, h⟩ := ebind_ok.mp h
  obtain ⟨_, _, h⟩ := ebind_ok.mp h
  obtain rfl := (Except.ok.inj h).symm
  rfl

theorem map_dip_samples {i j : ℕ} {labs : List Cell} {data : SubRow} {u : String}
    {kr : Cell × DipCoatingRec} (h : map_dip_coating i j labs data u = Except.ok kr) :
    kr.2.samples = mkRefs u labs := by
  unfold map_dip_coating at h
  obtain ⟨_, _, h⟩ := ebind_ok.mp h
  obtain ⟨_, _, h⟩ := ebind_ok.mp h
  obtain ⟨_, _, h⟩ := ebind_ok.mp h
  obtain ⟨_, _, h⟩ := ebind_ok.mp h
  obtain ⟨_, _, h⟩ := ebind_ok.mp h
  obtain rfl := (Except.ok.inj h).symm
  rfl

theorem map_sputtering_samples {i j : ℕ} {labs : List Cell} {data : SubRow} {u : String}
    {kr : Cell × SputteringRec} (h : map_sputtering i j labs data u = Except.ok kr) :
    kr.2.samples = mkRefs u labs := by
  unfold map_sputtering at h
  obtain ⟨_, _, h⟩ := ebind_ok.mp h
  obtain ⟨_, _, h⟩ := ebind_ok.mp h
  obtain ⟨_, _, h⟩ := ebind_ok.mp h
  obtain ⟨_, _, h⟩ := ebind_ok.mp h
  obtain ⟨_, _, h⟩ := ebind_ok.mp h
  obtain ⟨_, _, h⟩ := ebind_ok.mp h
  obtain ⟨_, _, h⟩ := ebind_ok.mp h
  obtain ⟨_, _, h⟩ := ebind_ok.mp h
  obtain rfl := (Except.ok.inj h).symm
  rfl

theorem map_ald_samples {i j : ℕ} {labs : List Cell} {data : SubRow} {u : String}
    {kr : Cell × ALDRec} (h : map_atomic_layer_deposition i j labs data u = Except.ok kr) :
    kr.2.samples = mkRefs u labs := by
  unfold map_atomic_layer_deposition at h
  obtain ⟨_, _, h⟩ := ebind_ok.mp h
  obtain ⟨_, _, h⟩ := ebind_ok.mp h
  obtain ⟨_, _, h⟩ := ebind_ok.mp h
  obtain ⟨_, _, h⟩ := ebind_ok.mp h
  obtain ⟨_, _, h⟩ := ebind_ok.mp h
  obtain ⟨_, _, h⟩ := ebind_ok.mp h
  obtain ⟨_, _, h⟩ := ebind_ok.mp h
  obtain ⟨_, _, h⟩ := ebind_ok.mp h
  obtain ⟨_, _, h⟩ := ebind_ok.mp h
  obtain ⟨_, _, h⟩ := ebind_ok.mp h
  obtain rfl := (Except.ok.inj h).symm
  rfl

theorem condList_spec {R : Type} {cond : Bool} {m : Except Unit (Cell × R)}
    {inj : R → Record} {li : List (Cell × Record)}
    (h : (if cond then ebind m (fun kr => Except.ok [(kr.1, inj kr.2)])
          else Except.ok []) = Except.ok li) :
    li.length = (if cond then 1 else 0) ∧
    ∀ e ∈ li, ∃ kr, m = Except.ok kr ∧ e = (kr.1, inj kr.2) := by
  rcases cond
  · simp only [Bool.false_eq_true, if_false] at h ⊢
    obtain rfl := (Except.ok.inj h).symm
    exact ⟨rfl, fun e he => absurd he (List.not_mem_nil e)⟩
  · simp only [if_true] at h ⊢
    obtain ⟨kr, hm, h⟩ := ebind_ok.mp h
    obtain rfl := (Except.ok.inj h).symm
    refine ⟨rfl, fun e he => ?_⟩
    obtain rfl := List.mem_singleton.mp he
    exact ⟨kr, hm, rfl⟩

theorem condListPure_spec {cond : Bool} {x : Cell × Record} {li : List (Cell × Record)}
    (h : (if cond then (Except.ok [x] : Except Unit (List (Cell × Record)))
          else Except.ok []) = Except.ok li) :
    li.length = (if cond then 1 else 0) ∧ ∀ e ∈ li, e = x := by
  rcases cond
  · simp only [Bool.false_eq_true, if_false] at h ⊢
    obtain rfl := (Except.ok.inj h).symm
    exact ⟨rfl, fun e he => absurd he (List.not_mem_nil e)⟩
  · simp only [if_true] at h ⊢
    obtain rfl := (Except.ok.inj h).symm
    exact ⟨rfl, fun e he => List.mem_singleton.mp he⟩

theorem rowRecords_spec {i j : ℕ} {labs : List Cell} {col : String} {row : SubRow}
    {u : String} {recs : List (Cell × Record)}
    (h : rowRecords i j labs col row u = Except.ok recs) :
    recs.length = kwCount col row ∧
    ∀ e ∈ recs, isProc e.2 = true ∧ recSamples e.2 = mkRefs u labs := by
  unfold rowRecords at h
  obtain ⟨l1, h1, h⟩ := ebind_ok.mp h
  obtain ⟨l2, h2, h⟩ := ebind_ok.mp h
  obtain ⟨hlen1, hmem1⟩ := condList_spec h1
  obtain ⟨hlen2, hmem2⟩ := condListPure_spec h2
  have spec1 : ∀ e ∈ l1, isProc e.2 = true ∧ recSamples e.2 = mkRefs u labs := by
    intro e he
    obtain ⟨kr, hm, rfl⟩ := hmem1 e he
    exact ⟨rfl, map_cleaning_samples hm⟩
  have spec2 : ∀ e ∈ l2, isProc e.2 = true ∧ recSamples e.2 = mkRefs u labs := by
    intro e he
    obtain rfl := hmem2 e he
    exact ⟨rfl, rfl⟩
  by_cases hmat : materialNa row = true
  · rw [hmat] at h
    simp only [if_true] at h
    obtain rfl := (Except.ok.inj h).symm
    constructor
    · simp only [kwCount, hmat, if_true, List.length_append, hlen1, hlen2]
      omega
    · intro e he
      rcases List.mem_append.mp he with he | he
      · exact spec1 e he
      · exact spec2 e he
  · rw [Bool.not_eq_true] at hmat
    rw [hmat] at h
    simp only [Bool.false_eq_true, if_false] at h
    obtain ⟨l3, h3, h⟩ := ebind_ok.mp h
    obtain ⟨l4, h4, h⟩ := ebind_ok.mp h
    obtain ⟨l5, h5, h⟩ := ebind_ok.mp h
    obtain ⟨l6, h6, h⟩ := ebind_ok.mp h
    obtain ⟨l7, h7, h⟩ := ebind_ok.mp h
    obtain ⟨l8, h8, h⟩ := ebind_ok.mp h
    obtain rfl := (Except.ok.inj h).symm
    obtain ⟨hlen3, hmem3⟩ := condList_spec h3
    obtain ⟨hlen4, hmem4⟩ := condList_spec h4
    obtain ⟨hlen5, hmem5⟩ := condList_spec h5
    obtain ⟨hlen6, hmem6⟩ := condList_spec h6
    obtain ⟨hlen7, hmem7⟩ := condList_spec h7
    obtain ⟨hlen8, hmem8⟩ := condList_spec h8
    constructor
    · simp only [kwCount, hmat, Bool.false_eq_true, if_false, List.length_append,
        hlen1, hlen2, hlen3, hlen4, hlen5, hlen6, hlen7, hlen8]
      omega
    · intro e he
      rcases List.mem_append.mp he with he | he8
      rotate_left
      · obtain ⟨kr, hm, rfl⟩ := hmem8 e he8
        exact ⟨rfl, map_ald_samples hm⟩
      rcases List.mem_append.mp he with he | he7
      rotate_left
      · obtain ⟨kr, hm, rfl⟩ := hmem7 e he7
        exact ⟨rfl, map_sputtering_samples hm⟩
      rcases List.mem_append.mp he with he | he6
      rotate_left
      · obtain ⟨kr, hm, rfl⟩ := hmem6 e he6
        exact ⟨rfl, map_dip_samples hm⟩
      rcases List.mem_append.mp he with he | he5
      rotate_left
      · obtain ⟨kr, hm, rfl⟩ := hmem5 e he5
        exact ⟨rfl, map_inkjet_samples hm⟩
      rcases List.mem_append.mp he with he | he4
      rotate_left
      · obtain ⟨kr, hm, rfl⟩ := hmem4 e he4
        exact ⟨rfl, map_spin_coating_samples hm⟩
      rcases List.mem_append.mp he with he | he3
      rotate_left
      · obtain ⟨kr, hm, rfl⟩ := hmem3 e he3
        exact ⟨rfl, map_evaporation_samples hm⟩
      rcases List.mem_append.mp he with he1 | he2
      · exact spec1 e he1
      · exact spec2 e he2

/-! ## Inversion lemmas for the parse loops -/

theorem groupRows_mem {u : String} {i : ℕ} {col : String} {ei g : List SubRow}
    {l : List (ℕ × SubRow)} {out : List (Cell × Record)} {e : Cell × Record}
    (h : groupRows u i col ei g l = Except.ok out) (he : e ∈ out) :
    ∃ jr, jr ∈ l ∧ ∃ labs recs, labIdsE ei g jr.2 = Except.ok labs ∧
      rowRecords i jr.1 labs col jr.2 u = Except.ok recs ∧ e ∈ recs := by
  induction l generalizing out with
  | nil =>
    unfold groupRows at h
    obtain rfl := (Except.ok.inj h).symm
    cases he
  | cons jr rest ih =>
    unfold groupRows at h
    obtain ⟨labs, hlabs, h⟩ := ebind_ok.mp h
    obtain ⟨recs, hrecs, h⟩ := ebind_ok.mp h
    obtain ⟨more, hmore, h⟩ := ebind_ok.mp h
    obtain rfl := (Except.ok.inj h).symm
    rcases List.mem_append.mp he with hmem | hmem
    · exact ⟨jr, List.mem_cons_self jr rest, labs, recs, hlabs, hrecs, hmem⟩
    · obtain ⟨jr', hjr', rest'⟩ := ih hmore hmem
      exact ⟨jr', List.mem_cons_of_mem jr hjr', rest'⟩

theorem groupRows_forall {u : String} {i : ℕ} {col : String} {ei g : List SubRow}
    {l : List (ℕ × SubRow)} {out : List (Cell × Record)} {jr : ℕ × SubRow}
    (h : groupRows u i col ei g l = Except.ok out) (hjr : jr ∈ l) :
    ∃ labs recs, labIdsE ei g jr.2 = Except.ok labs ∧
      rowRecords i jr.1 labs col jr.2 u = Except.ok recs ∧ ∀ e ∈ recs, e ∈ out := by
  induction l generalizing out with
  | nil => cases hjr
  | cons x rest ih =>
    unfold groupRows at h
    obtain ⟨labs, hlabs, h⟩ := ebind_ok.mp h
    obtain ⟨recs, hrecs, h⟩ := ebind_ok.mp h
    obtain ⟨more, hmore, h⟩ := ebind_ok.mp h
    obtain rfl := (Except.ok.inj h).symm
    rcases List.mem_cons.mp hjr with rfl | hmem
    · exact ⟨labs, recs, hlabs, hrecs, fun e he => List.mem_append_left _ he⟩
    · obtain ⟨labs', recs', h1, h2, h3⟩ := ih hmore hmem
      exact ⟨labs', recs', h1, h2, fun e he => List.mem_append_right _ (h3 e he)⟩

theorem groupRecords_elim {t : Table} {u : String} {ig : ℕ × String}
    {li : List (Cell × Record)} (h : groupRecords t u ig = Except.ok li)
    (hne : ¬ig.2 = "Experiment Info") :
    ∃ eiRows gRows, subRowsE t "Experiment Info" = Except.ok eiRows ∧
      subRowsE t ig.2 = Except.ok gRows ∧
      groupRows u ig.1 ig.2 eiRows gRows (dropDupBy gRows.enum []) = Except.ok li := by
  unfold groupRecords at h
  rw [if_neg hne] at h
  obtain ⟨eiRows, hei, h⟩ := ebind_ok.mp h
  obtain ⟨gRows, hg, h⟩ := ebind_ok.mp h
  exact ⟨eiRows, gRows, hei, hg, h⟩

theorem groupRecords_ei {t : Table} {u : String} {ig : ℕ × String}
    {li : List (Cell × Record)} (h : groupRecords t u ig = Except.ok li)
    (heq : ig.2 = "Experiment Info") : li = [] := by
  unfold groupRecords at h
  rw [if_pos heq] at h
  exact (Except.ok.inj h).symm

theorem processGroups_mem {t : Table} {u : String} {l : List (ℕ × String)}
    {out : List (Cell × Record)} {e : Cell × Record}
    (h : processGroups t u l = Except.ok out) (he : e ∈ out) :
    ∃ ig, ig ∈ l ∧ ∃ li, groupRecords t u ig = Except.ok li ∧ e ∈ li := by
  induction l generalizing out with
  | nil =>
    unfold processGroups at h
    obtain rfl := (Except.ok.inj h).symm
    cases he
  | cons ig rest ih =>
    unfold processGroups at h
    obtain ⟨li, hli, h⟩ := ebind_ok.mp h
    obtain ⟨more, hmore, h⟩ := ebind_ok.mp h
    obtain rfl := (Except.ok.inj h).symm
    rcases List.mem_append.mp he with hmem | hmem
    · exact ⟨ig, List.mem_cons_self ig rest, li, hli, hmem⟩
    · obtain ⟨ig', hig', rest'⟩ := ih hmore hmem
      exact ⟨ig', List.mem_cons_of_mem ig hig', rest'⟩

theorem processGroups_forall {t : Table} {u : String} {l : List (ℕ × String)}
    {out : List (Cell × Record)} {ig : ℕ × String}
    (h : processGroups t u l = Except.ok out) (hig : ig ∈ l) :
    ∃ li, groupRecords t u ig = Except.ok li ∧ ∀ e ∈ li, e ∈ out := by
  induction l generalizing out with
  | nil => cases hig
  | cons x rest ih =>
    unfold processGroups at h
    obtain ⟨li, hli, h⟩ := ebind_ok.mp h
    obtain ⟨more, hmore, h⟩ := ebind_ok.mp h
    obtain rfl := (Except.ok.inj h).symm
    rcases List.mem_cons.mp hig with rfl | hmem
    · exact ⟨li, hli, fun e he => List.mem_append_left _ he⟩
    · obtain ⟨li', h1, h2⟩ := ih hmore hmem
      exact ⟨li', h1, fun e he => List.mem_append_right _ (h2 e he)⟩

theorem buildSamples_mem {u : String} {subs : List (String × List Cell × SubstrateRec)}
    {rows : List SubRow} {out : List (Cell × Record)} {e : Cell × Record}
    (h : buildSamples u subs rows = Except.ok out) (he : e ∈ out) :
    ∃ row, row ∈ rows ∧ allNaRow row = false ∧
      ∃ pr key kr, projColsE row = Except.ok pr ∧ find_substrate pr subs = some key ∧
        map_basic_sample row (key ++ ".archive.json") u = Except.ok kr ∧
        e = (kr.1, Record.sample kr.2) := by
  induction rows generalizing out with
  | nil =>
    unfold buildSamples at h
    obtain rfl := (Except.ok.inj h).symm
    cases he
  | cons row rest ih =>
    unfold buildSamples at h
    by_cases hna : allNaRow row = true
    · rw [hna] at h
      simp only [if_true] at h
      obtain ⟨row', hrow', rest'⟩ := ih h he
      exact ⟨row', List.mem_cons_of_mem row hrow', rest'⟩
    · rw [Bool.not_eq_true] at hna
      rw [hna] at h
      simp only [Bool.false_eq_true, if_false] at h
      obtain ⟨pr, hpr, h⟩ := ebind_ok.mp h
      cases hfind : find_substrate pr subs with
      | none => rw [hfind] at h; exact absurd h (by simp)
      | some key =>
        rw [hfind] at h
        obtain ⟨kr, hkr, h⟩ := ebind_ok.mp h
        obtain ⟨more, hmore, h⟩ := ebind_ok.mp h
        obtain rfl := (Except.ok.inj h).symm
        rcases List.mem_cons.mp he with rfl | hmem
        · exact ⟨row, List.mem_cons_self row rest, hna, pr, key, kr, hpr, hfind, hkr, rfl⟩
        · obtain ⟨row', hrow', rest'⟩ := ih hmore hmem
          exact ⟨row', List.mem_cons_of_mem row hrow', rest'⟩

theorem find_substrate_mem {d : List Cell} {subs : List (String × List Cell × SubstrateRec)}
    {key : String} (h : find_substrate d subs = some key) :
    ∃ rec, (key, d, rec) ∈ subs := by
  induction subs with
  | nil => cases h
  | cons s ss ih =>
    unfold find_substrate at h
    by_cases hd : d = s.2.1
    · rw [if_pos hd] at h
      obtain rfl := Option.some.inj h
      subst hd
      exact ⟨s.2.2, List.mem_cons_self s ss⟩
    · rw [if_neg hd] at h
      obtain ⟨rec, hrec⟩ := ih h
      exact ⟨rec, List.mem_cons_of_mem s hrec⟩

theorem map_basic_sample_substrate {data : SubRow} {nm u : String} {kr : Cell × SampleRec}
    (h : map_basic_sample data nm u = Except.ok kr) :
    kr.2.substrate = get_reference u nm := by
  unfold map_basic_sample at h
  obtain ⟨nid, hnid, h⟩ := ebind_ok.mp h
  obtain rfl := (Except.ok.inj h).symm
  rfl

theorem dropDupBy_subset {α : Type} [DecidableEq α] {l : List (ℕ × α)} {seen : List α}
    {x : ℕ × α} (hx : x ∈ dropDupBy l seen) : x ∈ l ∧ x.2 ∉ seen := by
  induction l generalizing seen with
  | nil => cases hx
  | cons a as ih =>
    unfold dropDupBy at hx
    by_cases ha : a.2 ∈ seen
    · rw [if_pos ha] at hx
      obtain ⟨h1, h2⟩ := ih hx
      exact ⟨List.mem_cons_of_mem a h1, h2⟩
    · rw [if_neg ha] at hx
      rcases List.mem_cons.mp hx with rfl | hmem
      · exact ⟨List.mem_cons_self x as, ha⟩
      · obtain ⟨h1, h2⟩ := ih hmem
        exact ⟨List.mem_cons_of_mem a h1, fun hc => h2 (List.mem_cons_of_mem _ hc)⟩

theorem dropDupBy_nodup {α : Type} [DecidableEq α] (l : List (ℕ × α)) (seen : List α) :
    ((dropDupBy l seen).map Prod.snd).Nodup := by
  induction l generalizing seen with
  | nil => exact List.nodup_nil
  | cons a as ih =>
    unfold dropDupBy
    by_cases ha : a.2 ∈ seen
    · rw [if_pos ha]
      exact ih seen
    · rw [if_neg ha]
      refine List.Nodup.cons ?_ (ih (a.2 :: seen))
      intro hc
      obtain ⟨y, hy, hy2⟩ := List.mem_map.mp hc
      obtain ⟨-, hnotin⟩ := dropDupBy_subset hy
      exact hnotin (hy2 ▸ List.mem_cons_self a.2 seen)

theorem dropDupBy_covers {α : Type} [DecidableEq α] {l : List (ℕ × α)} {seen : List α}
    {x : ℕ × α} (hx : x ∈ l) (hs : x.2 ∉ seen) :
    ∃ y, y ∈ dropDupBy l seen ∧ y.2 = x.2 := by
  induction l generalizing seen with
  | nil => cases hx
  | cons a as ih =>
    unfold dropDupBy
    rcases List.mem_cons.mp hx with rfl | hmem
    · rw [if_neg hs]
      exact ⟨x, List.mem_cons_self x _, rfl⟩
    · by_cases ha : a.2 ∈ seen
      · rw [if_pos ha]
        exact ih hmem hs
      · rw [if_neg ha]
        by_cases hax : a.2 = x.2
        · exact ⟨a, List.mem_cons_self a _, hax⟩
        · obtain ⟨y, hy, hy2⟩ := ih hmem (by
            intro hc
            rcases List.mem_cons.mp hc with hc | hc
            · exact hax hc.symm
            · exact hs hc)
          exact ⟨y, List.mem_cons_of_mem a hy, hy2⟩

theorem projAll_forall2 {l : List (ℕ × SubRow)} {out : List (ℕ × List Cell)}
    (h : projAll l = Except.ok out) :
    List.Forall₂ (fun p q => p.1 = q.1 ∧ projColsE p.2 = Except.ok q.2) l out := by
  induction l generalizing out with
  | nil =>
    unfold projAll at h
    obtain rfl := (Except.ok.inj h).symm
    exact List.Forall₂.nil
  | cons p ps ih =>
    unfold projAll at h
    obtain ⟨pr, hpr, h⟩ := ebind_ok.mp h
    obtain ⟨rest, hrest, h⟩ := ebind_ok.mp h
    obtain rfl := (Except.ok.inj h).symm
    exact List.Forall₂.cons ⟨rfl, hpr⟩ (ih hrest)

theorem forall2_mem_left {α β : Type} {R : α → β → Prop} {l1 : List α} {l2 : List β}
    (h : List.Forall₂ R l1 l2) {a : α} (ha : a ∈ l1) : ∃ b, b ∈ l2 ∧ R a b := by
  induction h with
  | nil => cases ha
  | cons hr hrest ih =>
    rcases List.mem_cons.mp ha with rfl | hmem
    · exact ⟨_, List.mem_cons_self _ _, hr⟩
    · obtain ⟨b, hb, hrb⟩ := ih hmem
      exact ⟨b, List.mem_cons_of_mem _ hb, hrb⟩

theorem mem_enum_of_mem {α : Type} {l : List α} {a : α} (ha : a ∈ l) :
    ∃ n, (n, a) ∈ l.enum := by
  rw [← List.enum_map_snd l] at ha
  obtain ⟨p, hp, hsnd⟩ := List.mem_map.mp ha
  exact ⟨p.1, by rwa [show (p.1, a) = p from Prod.ext rfl hsnd.symm]⟩

theorem buildSubstrates_mem {l : List (ℕ × List Cell)}
    {out : List (String × List Cell × SubstrateRec)}
    {s : String × List Cell × SubstrateRec}
    (h : buildSubstrates l = Except.ok out) (hs : s ∈ out) :
    ∃ p, p ∈ l ∧ allNaCells p.2 = false ∧
      ∃ rec, map_substrate (substratesCol.zip p.2) = Except.ok rec ∧
        s = (toString p.1 ++ "_substrate", p.2, rec) := by
  induction l generalizing out with
  | nil =>
    unfold buildSubstrates at h
    obtain rfl := (Except.ok.inj h).symm
    cases hs
  | cons p ps ih =>
    unfold buildSubstrates at h
    by_cases hna : allNaCells p.2 = true
    · rw [hna] at h
      simp only [if_true] at h
      obtain ⟨p', hp', rest'⟩ := ih h hs
      exact ⟨p', List.mem_cons_of_mem p hp', rest'⟩
    · rw [Bool.not_eq_true] at hna
      rw [hna] at h
      simp only [Bool.false_eq_true, if_false] at h
      obtain ⟨rec, hrec, h⟩ := ebind_ok.mp h
      obtain ⟨rest, hrest, h⟩ := ebind_ok.mp h
      obtain rfl := (Except.ok.inj h).symm
      rcases List.mem_cons.mp hs with rfl | hmem
      · exact ⟨p, List.mem_cons_self p ps, hna, rec, hrec, rfl⟩
      · obtain ⟨p', hp', rest'⟩ := ih hrest hmem
        exact ⟨p', List.mem_cons_of_mem p hp', rest'⟩

theorem buildSubstrates_covers {l : List (ℕ × List Cell)}
    {out : List (String × List Cell × SubstrateRec)} {p : ℕ × List Cell}
    (h : buildSubstrates l = Except.ok out) (hp : p ∈ l) (hna : allNaCells p.2 = false) :
    ∃ s, s ∈ out ∧ s.2.1 = p.2 := by
  induction l generalizing out with
  | nil => cases hp
  | cons a as ih =>
    unfold buildSubstrates at h
    rcases List.mem_cons.mp hp with rfl | hmem
    · rw [hna] at h
      simp only [Bool.false_eq_true, if_false] at h
      obtain ⟨rec, hrec, h⟩ := ebind_ok.mp h
      obtain ⟨rest, hrest, h⟩ := ebind_ok.mp h
      obtain rfl := (Except.ok.inj h).symm
      exact ⟨_, List.mem_cons_self _ _, rfl⟩
    · by_cases hana : allNaCells a.2 = true
      · rw [hana] at h
        simp only [if_true] at h
        exact ih h hmem
      · rw [Bool.not_eq_true] at hana
        rw [hana] at h
        simp only [Bool.false_eq_true, if_false] at h
        obtain ⟨rec, hrec, h⟩ := ebind_ok.mp h
        obtain ⟨rest, hrest, h⟩ := ebind_ok.mp h
        obtain rfl := (Except.ok.inj h).symm
        obtain ⟨s, hsm, hs2⟩ := ih hrest hmem
        exact ⟨s, List.mem_cons_of_mem _ hsm, hs2⟩

theorem buildSubstrates_sublist {l : List (ℕ × List Cell)}
    {out : List (String × List Cell × SubstrateRec)}
    (h : buildSubstrates l = Except.ok out) :
    (out.map (fun s => s.2.1)).Sublist (l.map Prod.snd) := by
  induction l generalizing out with
  | nil =>
    unfold buildSubstrates at h
    obtain rfl := (Except.ok.inj h).symm
    simp
  | cons p ps ih =>
    unfold buildSubstrates at h
    by_cases hna : allNaCells p.2 = true
    · rw [hna] at h
      simp only [if_true] at h
      exact (ih h).cons p.2
    · rw [Bool.not_eq_true] at hna
      rw [hna] at h
      simp only [Bool.false_eq_true, if_false] at h
      obtain ⟨rec, hrec, h⟩ := ebind_ok.mp h
      obtain ⟨rest, hrest, h⟩ := ebind_ok.mp h
      obtain rfl := (Except.ok.inj h).symm
      simpa using (ih hrest).cons₂ p.2

theorem processEntries_isProc {t : Table} {u : String} {procs : List (Cell × Record)}
    (h : processEntriesOf t u = Except.ok procs) : ∀ e ∈ procs, isProc e.2 = true := by
  intro e he
  unfold processEntriesOf at h
  obtain ⟨ig, hig, li, hgr, heli⟩ := processGroups_mem h he
  by_cases hei : ig.2 = "Experiment Info"
  · obtain rfl := groupRecords_ei hgr hei
    cases heli
  · obtain ⟨eiRows, gRows, h1, h2, h3⟩ := groupRecords_elim hgr hei
    obtain ⟨jr, hjr, labs, recs, hlabs, hrecs, herecs⟩ := groupRows_mem h3 heli
    exact ((rowRecords_spec hrecs).2 e herecs).1

theorem sampleArchives_shape {t : Table} {u : String}
    {subs : List (String × List Cell × SubstrateRec)} {samps : List (Cell × Record)}
    (h : sampleArchives t u subs = Except.ok samps) :
    ∀ e ∈ samps, ∃ sr, e.2 = Record.sample sr := by
  intro e he
  unfold sampleArchives at h
  obtain ⟨ei, hei, h⟩ := ebind_ok.mp h
  obtain ⟨row, hrow, hna, pr, key, kr, hpr, hfind, hmbs, rfl⟩ := buildSamples_mem h he
  exact ⟨kr.2, rfl⟩

/-- C1 (amended): the process loop creates records only for column groups
whose name contains a recognized keyword ('Cleaning', 'Generic Process' and,
when the row's 'Material name' is not missing, 'Evaporation', 'Spin Coating',
'Inkjet Printing', 'Dip Coating', 'Sputtering', 'ALD'); per deduplicated row
it creates exactly one record per contained keyword (`kwCount`), always with
a samples list holding exactly the 'Nomad ID' values of the rows whose
content in the column group equals that row's content; all process records
`parse` outputs arise this way, and every deduplicated row of every
non-'Experiment Info' group contributes its records to the output. -/
theorem c1_process_grouping :
    (∀ (i j : ℕ) (labs : List Cell) (col : String) (row : SubRow) (u : String)
        (recs : List (Cell × Record)), rowRecords i j labs col row u = Except.ok recs →
      recs.length = kwCount col row ∧
      ∀ e ∈ recs, isProc e.2 = true ∧
        recSamples e.2 = labs.map (fun l =>
          ({ reference := get_reference u (pyCellStr l ++ ".archive.json"), lab_id := l } :
            CompositeSystemReference))) ∧
    (∀ (t : Table) (u : String) (out : List (Cell × Record)), parse t u = Except.ok out →
      ∀ e ∈ out, isProc e.2 = true →
      ∃ i col eiRows gRows j row labs recs,
        (i, col) ∈ (uniqueTops t).enum ∧ ¬col = "Experiment Info" ∧
        subRowsE t "Experiment Info" = Except.ok eiRows ∧
        subRowsE t col = Except.ok gRows ∧
        (j, row) ∈ dropDupBy gRows.enum [] ∧
        labIdsE eiRows gRows row = Except.ok labs ∧
        List.Forall₂ (fun pr c => lookupCellE pr.1 "Nomad ID" = Except.ok c)
          ((eiRows.zip gRows).filter (fun pr => decide (pr.2 = row))) labs ∧
        rowRecords i j labs col row u = Except.ok recs ∧ e ∈ recs) ∧
    (∀ (t : Table) (u : String) (out : List (Cell × Record)), parse t u = Except.ok out →
      ∀ ig : ℕ × String, ig ∈ (uniqueTops t).enum → ¬ig.2 = "Experiment Info" →
      ∀ eiRows gRows, subRowsE t "Experiment Info" = Except.ok eiRows →
        subRowsE t ig.2 = Except.ok gRows →
      ∀ jr : ℕ × SubRow, jr ∈ dropDupBy gRows.enum [] →
      ∃ labs recs, labIdsE eiRows gRows jr.2 = Except.ok labs ∧
        rowRecords ig.1 jr.1 labs ig.2 jr.2 u = Except.ok recs ∧
        ∀ e ∈ recs, e ∈ out) := by
  refine ⟨?_, ?_, ?_⟩
  · intro i j labs col row u recs h
    obtain ⟨hlen, hmem⟩ := rowRecords_spec h
    exact ⟨hlen, hmem⟩
  · intro t u out hp e he hproc
    obtain ⟨first, rest, bid, subs, samps, procs, hids, hbid, hsubs, hsamps, hprocs, hout⟩ :=
      parse_ok_elim hp
    subst hout
    rcases List.mem_append.mp he with he | heP
    · rcases List.mem_append.mp he with he | heS
      · rcases List.mem_append.mp he with heA | heB
        · obtain ⟨s, hsm, rfl⟩ := List.mem_map.mp heA
          exact absurd hproc (by simp [isProc])
        · obtain rfl := List.mem_singleton.mp heB
          exact absurd hproc (by simp [isProc])
      · obtain ⟨sr, hsr⟩ := sampleArchives_shape hsamps e heS
        rw [hsr] at hproc
        exact absurd hproc (by simp [isProc])
    · unfold processEntriesOf at hprocs
      obtain ⟨ig, hig, li, hgr, heli⟩ := processGroups_mem hprocs heP
      by_cases hei : ig.2 = "Experiment Info"
      · obtain rfl := groupRecords_ei hgr hei
        cases heli
      · obtain ⟨eiRows, gRows, h1, h2, h3⟩ := groupRecords_elim hgr hei
        obtain ⟨jr, hjr, labs, recs, hlabs, hrecs, herecs⟩ := groupRows_mem h3 heli
        have hf2 : List.Forall₂ (fun pr c => lookupCellE pr.1 "Nomad ID" = Except.ok c)
            ((eiRows.zip gRows).filter (fun pr => decide (pr.2 = jr.2))) labs := by
          have hl := hlabs
          unfold labIdsE at hl
          exact mapME_forall2 hl
        exact ⟨ig.1, ig.2, eiRows, gRows, jr.1, jr.2, labs, recs, hig, hei, h1, h2, hjr,
          hlabs, hf2, hrecs, herecs⟩
  · intro t u out hp ig hig hne eiRows gRows hei hg jr hjr
    obtain ⟨first, rest, bid, subs, samps, procs, hids, hbid, hsubs, hsamps, hprocs, hout⟩ :=
      parse_ok_elim hp
    subst hout
    unfold processEntriesOf at hprocs
    obtain ⟨li, hgr, hsub⟩ := processGroups_forall hprocs hig
    obtain ⟨eiRows', gRows', h1, h2, h3⟩ := groupRecords_elim hgr hne
    rw [hei] at h1
    obtain rfl := Except.ok.inj h1
    rw [hg] at h2
    obtain rfl := Except.ok.inj h2
    obtain ⟨labs, recs, hlabs, hrecs, hin⟩ := groupRows_forall h3 hjr
    exact ⟨labs, recs, hlabs, hrecs,
      fun e he => List.mem_append_right _ (hsub e (hin e he))⟩

/-- C1 counterexample: the column group 'Foo' (no recognized keyword) has one
distinct, non-empty row with a 'Material name', yet `parse` creates zero
process records for the whole sheet — not "exactly one per distinct row of
every group other than 'Experiment Info'". -/
theorem c1_process_grouping_counterexample :
    Except.map (fun l => (l.filter (fun e : Cell × Record => isProc e.2)).length)
      (parse exT1 "u") = Except.ok 0 ∧
    uniqueTops exT1 = ["Experiment Info", "Foo"] ∧
    subRowsE exT1 "Foo" = Except.ok [[("Material name", Cell.str "PbI2")]] :=
  ⟨rfl, rfl, rfl⟩

/-- Witness for C1: a 'Generic Process' column row yields exactly one record
whose samples list references the matching 'Nomad ID'. -/
theorem c1_process_grouping_witness :
    rowRecords 1 0 [Cell.str "a_0"] "Generic Process" exRowG "u" = Except.ok exRecsG ∧
    exRecsG.length = kwCount "Generic Process" exRowG ∧
    isProc exGenRec = true ∧
    recSamples exGenRec = [Cell.str "a_0"].map (fun l =>
      ({ reference := get_reference "u" (pyCellStr l ++ ".archive.json"), lab_id := l } :
        CompositeSystemReference)) := by
  have h := c1_process_grouping.1 1 0 [Cell.str "a_0"] "Generic Process" exRowG "u" exRecsG rfl
  obtain ⟨hp, hs⟩ := h.2 (Cell.str "1_0_generic_process", exGenRec) (List.Mem.head _)
  exact ⟨rfl, h.1, hp, hs⟩

/-- C2 (amended): `parse` assigns one substrate record per unique combination
of the four substrate-identifying columns that is NOT entirely missing (the
projections of the stored substrates are pairwise distinct, none is all-`NaN`
and every not-all-`NaN` row combination is covered), and every sample record
is linked — through its `substrate` reference — to the stored substrate whose
combination equals that sample row's combination.  (A sample row whose four
cells are all missing makes `parse` raise instead — see the
counterexample.) -/
theorem c2_substrate_dedup :
    (∀ (t : Table) (subs : List (String × List Cell × SubstrateRec)),
      substratesOf t = Except.ok subs →
      (subs.map (fun s => s.2.1)).Nodup ∧
      (∀ s ∈ subs, allNaCells s.2.1 = false) ∧
      (∀ eiRows, subRowsE t "Experiment Info" = Except.ok eiRows →
        ∀ row ∈ eiRows, ∀ pr, projColsE row = Except.ok pr → allNaCells pr = false →
          ∃ s ∈ subs, s.2.1 = pr)) ∧
    (∀ (t : Table) (u : String) (subs : List (String × List Cell × SubstrateRec))
        (samps : List (Cell × Record)), substratesOf t = Except.ok subs →
      sampleArchives t u subs = Except.ok samps →
      ∀ e ∈ samps, ∃ sr, e.2 = Record.sample sr ∧
        ∃ eiRows row, subRowsE t "Experiment Info" = Except.ok eiRows ∧ row ∈ eiRows ∧
          allNaRow row = false ∧
          ∃ s ∈ subs, projColsE row = Except.ok s.2.1 ∧
            map_basic_sample row (s.1 ++ ".archive.json") u = Except.ok (e.1, sr) ∧
            sr.substrate = get_reference u (s.1 ++ ".archive.json")) := by
  constructor
  · intro t subs hsubs
    unfold substratesOf at hsubs
    obtain ⟨eiRows0, hei0, hsubs⟩ := ebind_ok.mp hsubs
    obtain ⟨projs, hproj, hsubs⟩ := ebind_ok.mp hsubs
    refine ⟨?_, ?_, ?_⟩
    · exact List.Nodup.sublist (buildSubstrates_sublist hsubs) (dropDupBy_nodup projs [])
    · intro s hs
      obtain ⟨p, hpm, hna, rec, hrec, rfl⟩ := buildSubstrates_mem hsubs hs
      exact hna
    · intro eiRows hei row hrow pr hpr hna
      have heq : eiRows = eiRows0 := by
        rw [hei] at hei0
        exact Except.ok.inj hei0
      obtain ⟨n, hn⟩ := mem_enum_of_mem hrow
      rw [heq] at hn
      obtain ⟨q, hq, hq1, hq2⟩ := forall2_mem_left (projAll_forall2 hproj) hn
      rw [hpr] at hq2
      obtain hq2 := Except.ok.inj hq2
      obtain ⟨y, hy, hy2⟩ := dropDupBy_covers hq (List.not_mem_nil _)
      obtain ⟨s, hsm, hs2⟩ := buildSubstrates_covers hsubs hy
        (by rw [hy2, ← hq2]; exact hna)
      exact ⟨s, hsm, by rw [hs2, hy2, ← hq2]⟩
  · intro t u subs samps hsubs hsa e he
    unfold sampleArchives at hsa
    obtain ⟨eiRows, hei, hsa⟩ := ebind_ok.mp hsa
    obtain ⟨row, hrow, hna, pr, key, kr, hpr, hfind, hmbs, rfl⟩ := buildSamples_mem hsa he
    refine ⟨kr.2, rfl, eiRows, row, hei, hrow, hna, ?_⟩
    obtain ⟨rec, hmem⟩ := find_substrate_mem hfind
    exact ⟨(key, pr, rec), hmem, hpr, hmbs, map_basic_sample_substrate hmbs⟩

/-- C2 counterexample: a sheet whose only sample row has a 'Nomad ID' but all
four substrate-identifying cells missing: the all-missing combination gets no
substrate record (`substratesOf` is empty) and `parse` raises
(`None + '.archive.json'`) instead of linking the sample row. -/
theorem c2_substrate_dedup_counterexample :
    parse exT2 "u" = Except.error () ∧
    substratesOf exT2 = Except.ok [] ∧
    subRowsE exT2 "Experiment Info" = Except.ok
      [[("Nomad ID", Cell.str "b_1"), ("Sample dimension", Cell.na),
        ("Sample area [cm^2]", Cell.na), ("Substrate material", Cell.na),
        ("Substrate conductive layer", Cell.na)]] :=
  ⟨rfl, rfl, rfl⟩

/-- Witness for C2: on `exT3` the stored substrate projections are distinct
and the sample is linked to the '0_substrate' record. -/
theorem c2_substrate_dedup_witness :
    (exSubs3.map (fun s => s.2.1)).Nodup ∧
    exSample3.substrate = get_reference "u" ("0_substrate" ++ ".archive.json") := by
  refine ⟨(c2_substrate_dedup.1 exT3 exSubs3 rfl).1, ?_⟩
  obtain ⟨sr, hsr, eiRows, row, hei, hrow, hna, s, hsm, hproj, hmbs, hsub⟩ :=
    (c2_substrate_dedup.2 exT3 "u" exSubs3 [(Cell.str "a_0", Record.sample exSample3)]
      rfl rfl) (Cell.str "a_0", Record.sample exSample3) (List.Mem.head _)
  obtain rfl := Record.sample.inj hsr
  obtain rfl := List.mem_singleton.mp hsm
  exact hsub

/-- C3: every record `parse` outputs carries its reference links: the batch
record holds one `CompositeSystemReference` to `'<lab_id>.archive.json'` per
non-missing 'Nomad ID'; every sample record's `substrate` field references a
substrate record that is itself part of the output; and every process
record's samples list holds one reference per lab id sharing that process
instance (the 'Nomad ID's of the rows with equal column-group content). -/
theorem c3_reference_links :
    ∀ (t : Table) (u : String) (out : List (Cell × Record)), parse t u = Except.ok out →
    (∀ (k : Cell) (b : BatchRec), (k, Record.batch b) ∈ out →
      ∃ ids, sampleIdCells t = Except.ok ids ∧
        b.entities = ids.map (fun l =>
          ({ reference := get_reference u (pyCellStr l ++ ".archive.json"), lab_id := l } :
            CompositeSystemReference))) ∧
    (∀ (k : Cell) (s : SampleRec), (k, Record.sample s) ∈ out →
      ∃ key rec, (Cell.str key, Record.substrate rec) ∈ out ∧
        s.substrate = get_reference u (key ++ ".archive.json")) ∧
    (∀ (k : Cell) (r : Record), (k, r) ∈ out → isProc r = true →
      ∃ labs, recSamples r = labs.map (fun l =>
          ({ reference := get_reference u (pyCellStr l ++ ".archive.json"), lab_id := l } :
            CompositeSystemReference)) ∧
        ∃ eiRows gRows target, subRowsE t "Experiment Info" = Except.ok eiRows ∧
          labIdsE eiRows gRows target = Except.ok labs ∧
          List.Forall₂ (fun pr c => lookupCellE pr.1 "Nomad ID" = Except.ok c)
            ((eiRows.zip gRows).filter (fun pr => decide (pr.2 = target))) labs) := by
  intro t u out hp
  obtain ⟨first, rest, bid, subs, samps, procs, hids, hbid, hsubs, hsamps, hprocs, hout⟩ :=
    parse_ok_elim hp
  subst hout
  refine ⟨?_, ?_, ?_⟩
  · intro k b hmem
    rcases List.mem_append.mp hmem with hm | hmP
    · rcases List.mem_append.mp hm with hm | hmS
      · rcases List.mem_append.mp hm with hmA | hmB
        · obtain ⟨s, hsm, heq⟩ := List.mem_map.mp hmA
          exact Record.noConfusion (congrArg Prod.snd heq)
        · obtain heq := List.mem_singleton.mp hmB
          obtain hb := Record.batch.inj (congrArg Prod.snd heq)
          refine ⟨first :: rest, hids, ?_⟩
          rw [hb]
          rfl
      · obtain ⟨sr, hsr⟩ := sampleArchives_shape hsamps _ hmS
        exact Record.noConfusion hsr
    · have := processEntries_isProc hprocs _ hmP
      exact absurd this (by simp [isProc])
  · intro k s hmem
    rcases List.mem_append.mp hmem with hm | hmP
    · rcases List.mem_append.mp hm with hm | hmS
      · rcases List.mem_append.mp hm with hmA | hmB
        · obtain ⟨s', hsm, heq⟩ := List.mem_map.mp hmA
          exact Record.noConfusion (congrArg Prod.snd heq)
        · obtain heq := List.mem_singleton.mp hmB
          exact Record.noConfusion (congrArg Prod.snd heq)
      · unfold sampleArchives at hsamps
        obtain ⟨eiRows, hei, hsamps⟩ := ebind_ok.mp hsamps
        obtain ⟨row, hrow, hna, pr, key, kr, hpr, hfind, hmbs, heq⟩ :=
          buildSamples_mem hsamps hmS
        obtain hs := Record.sample.inj (congrArg Prod.snd heq)
        obtain ⟨rec, hsubmem⟩ := find_substrate_mem hfind
        refine ⟨key, rec, ?_, ?_⟩
        · exact List.mem_append_left _ (List.mem_append_left _ (List.mem_append_left _
            (List.mem_map.mpr ⟨(key, pr, rec), hsubmem, rfl⟩)))
        · rw [hs]
          exact map_basic_sample_substrate hmbs
    · have := processEntries_isProc hprocs _ hmP
      exact absurd this (by simp [isProc])
  · intro k r hmem hproc
    rcases List.mem_append.mp hmem with hm | hmP
    · rcases List.mem_append.mp hm with hm | hmS
      · rcases List.mem_append.mp hm with hmA | hmB
        · obtain ⟨s, hsm, heq⟩ := List.mem_map.mp hmA
          have hr : Record.substrate s.2.2 = r := congrArg Prod.snd heq
          rw [← hr] at hproc
          exact absurd hproc (by simp [isProc])
        · obtain heq := List.mem_singleton.mp hmB
          have hr : r = Record.batch (map_batch (first :: rest) bid u) :=
            congrArg Prod.snd heq
          rw [hr] at hproc
          exact absurd hproc (by simp [isProc])
      · obtain ⟨sr, hsr⟩ := sampleArchives_shape hsamps _ hmS
        have hr : r = Record.sample sr := hsr
        rw [hr] at hproc
        exact absurd hproc (by simp [isProc])
    · unfold processEntriesOf at hprocs
      obtain ⟨ig, hig, li, hgr, heli⟩ := processGroups_mem hprocs hmP
      by_cases heqEI : ig.2 = "Experiment Info"
      · obtain rfl := groupRecords_ei hgr heqEI
        cases heli
      · obtain ⟨eiRows, gRows, h1, h2, h3⟩ := groupRecords_elim hgr heqEI
        obtain ⟨jr, hjr, labs, recs, hlabs, hrecs, herecs⟩ := groupRows_mem h3 heli
        have hsamp := ((rowRecords_spec hrecs).2 _ herecs).2
        have hf2 : List.Forall₂ (fun pr c => lookupCellE pr.1 "Nomad ID" = Except.ok c)
            ((eiRows.zip gRows).filter (fun pr => decide (pr.2 = jr.2))) labs := by
          have hl := hlabs
          unfold labIdsE at hl
          exact mapME_forall2 hl
        exact ⟨labs, hsamp, eiRows, gRows, jr.2, h1, hlabs, hf2⟩

/-- Witness for C3: concrete reference links in the output of `parse` on
`exT3`: the batch references `a_0.archive.json` and the sample references the
'0_substrate' archive. -/
theorem c3_reference_links_witness :
    parse exT3 "u" = Except.ok exOut3 ∧
    exBatch3.entities = [Cell.str "a_0"].map (fun l =>
      ({ reference := get_reference "u" (pyCellStr l ++ ".archive.json"), lab_id := l } :
        CompositeSystemReference)) ∧
    exSample3.substrate = get_reference "u" ("0_substrate" ++ ".archive.json") := by
  have h := c3_reference_links exT3 "u" exOut3 rfl
  refine ⟨rfl, ?_, ?_⟩
  · obtain ⟨ids, hids, hent⟩ :=
      h.1 (Cell.str "a") exBatch3 (List.Mem.tail _ (List.Mem.head _))
    have h0 : sampleIdCells exT3 = Except.ok [Cell.str "a_0"] := rfl
    rw [h0] at hids
    obtain rfl := Except.ok.inj hids
    exact hent
  · obtain ⟨key, rec, hmem, hsub⟩ :=
      h.2.1 (Cell.str "a_0") exSample3 (List.Mem.tail _ (List.Mem.tail _ (List.Mem.head _)))
    cases hmem with
    | head =>
      exact hsub
    | tail _ hmem2 =>
      cases hmem2 with
      | tail _ hmem3 =>
        cases hmem3 with
        | tail _ hmem4 => cases hmem4
